import Mathlib

/-!
# A shallow embedding of the CSVToGeo core (read_key.py, parse_datatypes.py,
# CSVToGeoJSON.py) and proofs about it.

Conventions of the embedding:
* Python `dict` values are association lists (`List (String × α)`) with
  `dget` for subscript reads and `dinsert` for subscript writes; `dinsert`
  keeps the first-insertion position of a key (as CPython does) and appends
  new keys at the end, so iteration order of the model matches Python's
  insertion order.
* Python exceptions become `Except Err`; the `Err` constructors name the
  Python exception classes that the source can raise (`ValueError`,
  `KeyError`, `NameError` from the missing `logging` import,
  `ZeroDivisionError`, `RuntimeError`, `TypeError`, `AttributeError`,
  `IndexError` from `re.Match.group` on an unknown group name).
* Python `float` cells are modelled as `Rat`; the data files at issue hold
  short decimal literals, and every claim compares such literals, so the
  rational model is exact on every input the claims touch.  `float()` /
  `int()` literal parsing is modelled for finite decimal/exponent forms
  (the `inf`/`nan`/underscore spellings are not modelled; all inputs are
  stripped before parsing in the source paths under study).
* External collaborators (the `re` module's compiler, `osgeo`'s EPSG
  resolver, the codec registry) enter as explicit capability parameters,
  mirroring the capability interfaces the specification assigns to them.
  A compiled regular expression is a `Regex`: its pattern text, its named
  groups, and its match function returning a group dictionary.
-/

/-- Python whitespace as stripped by `str.strip()` (ASCII subset; the key
and data cells at issue contain no exotic Unicode whitespace). -/
def isPySpace (c : Char) : Bool :=
  c = ' ' ∨ c = '\t' ∨ c = '\n' ∨ c = '\r' ∨ c = '\x0b' ∨ c = '\x0c'

/-- `str.strip()` on the underlying character list. -/
def pyStripList (cs : List Char) : List Char :=
  ((cs.dropWhile isPySpace).reverse.dropWhile isPySpace).reverse

/-- `str.strip()`. -/
def pyStrip (s : String) : String :=
  ⟨pyStripList s.data⟩

/-- `d[k]` as a total read: `some` value of the first (unique) binding. -/
def dget {α : Type} (d : List (String × α)) (k : String) : Option α :=
  (d.find? (fun p => p.1 == k)).map (fun p => p.2)

/-- `k in d`. -/
def dmem {α : Type} (d : List (String × α)) (k : String) : Bool :=
  (dget d k).isSome

/-- `d[k] = v`: replace in place if the key exists, else append. -/
def dinsert {α : Type} (d : List (String × α)) (k : String) (v : α) :
    List (String × α) :=
  match d with
  | [] => [(k, v)]
  | (k', v') :: rest =>
    if k' == k then (k', v) :: rest else (k', v') :: dinsert rest k v

/-- `dict(zip(header, row))`: later duplicate keys keep the first position
but the last value, exactly as a CPython dict built by assignment. -/
def dictOfPairs (ps : List (String × String)) : List (String × String) :=
  ps.foldl (fun d p => dinsert d p.1 p.2) []

/-- Digits to a natural number, most significant first. -/
def digitsToNat (cs : List Char) : Nat :=
  cs.foldl (fun a c => 10 * a + (c.toNat - 48)) 0

/-- Leading sign of a numeric literal: `(negative?, rest)`. -/
def takeSign : List Char → Bool × List Char
  | '-' :: cs => (true, cs)
  | '+' :: cs => (false, cs)
  | cs => (false, cs)

/-- Python `int(s)` on a stripped cell: optional sign then one or more
digits, `none` when the text is not an integer literal. -/
def parseIntLit (s : String) : Option Int :=
  let (neg, cs) := takeSign s.data
  if cs ≠ [] ∧ cs.all Char.isDigit then
    let n : Int := digitsToNat cs
    some (if neg then -n else n)
  else none

/-- Mantissa of a float literal: digits, optional point, digits; at least
one digit overall.  Returns the digits' value and the count of fractional
digits. -/
def parseMantissa (cs : List Char) : Option (Nat × Nat) :=
  let ip := cs.takeWhile Char.isDigit
  let rest := cs.dropWhile Char.isDigit
  match rest with
  | [] => if ip = [] then none else some (digitsToNat ip, 0)
  | '.' :: fp =>
    if fp.all Char.isDigit ∧ (ip ≠ [] ∨ fp ≠ []) then
      some (digitsToNat (ip ++ fp), fp.length)
    else none
  | _ => none

/-- Split a float literal at its exponent marker, if any. -/
def splitExp : List Char → List Char × Option (List Char)
  | [] => ([], none)
  | c :: cs =>
    if c = 'e' ∨ c = 'E' then ([], some cs)
    else
      let (m, e) := splitExp cs
      (c :: m, e)

/-- Exponent part: optional sign then one or more digits. -/
def parseExpPart (cs : List Char) : Option Int :=
  let (neg, ds) := takeSign cs
  if ds ≠ [] ∧ ds.all Char.isDigit then
    let n : Int := digitsToNat ds
    some (if neg then -n else n)
  else none

/-- Python `float(s)` on a stripped cell, for finite decimal/exponent
literals, as an exact rational: `±(mantissa digits) * 10^(exp - scale)`.
(`mkRat`/`Int.pow` are used instead of rational `*`,`/`,`^` so that the
kernel can evaluate the parser on literals.) -/
def parseRealLit (s : String) : Option Rat :=
  let (neg, cs) := takeSign s.data
  let (man, expPart) := splitExp cs
  match parseMantissa man with
  | none => none
  | some (n, scale) =>
    let e? : Option Int :=
      match expPart with
      | none => some 0
      | some ec => parseExpPart ec
    match e? with
    | none => none
    | some e =>
      let d : Int := e - scale
      let m : Int := if 0 ≤ d then (n : Int) * (10 : Int) ^ d.toNat else n
      let den : Nat := if 0 ≤ d then 1 else (10 : Nat) ^ (-d).toNat
      some (mkRat (if neg then -m else m) den)

/-- The Python exceptions the core can raise. -/
inductive Err : Type
  | valueError (msg : String)
  | keyError (key : String)
  | nameError (name : String)
  | zeroDivisionError
  | runtimeError (msg : String)
  | typeError (msg : String)
  | attributeError (msg : String)
  | indexError (msg : String)
deriving DecidableEq, Inhabited

deriving instance DecidableEq for Except

/-- A typed cell value (`None`, `int`, `float`, `str`). -/
inductive PyVal : Type
  | none
  | int (n : Int)
  | real (q : Rat)
  | str (s : String)
deriving DecidableEq, Inhabited, BEq

/-- Python `repr`-ish rendering of an optional raw cell, as used when a
message interpolates `raw_record.get(col)` (which may be `None`). -/
def fmtOptStr : Option String → String
  | Option.none => "None"
  | Option.some s => s

/-! ## parse_datatypes.py -/

/-- `ParseDatatype.__init__`: the NA-sentinel configuration. -/
structure ParseDatatype where
  number_NA : List String
  string_NA : List String

/-- `ParseDatatype.integer` (alias `int`): `None` stays `None`, sentinel
strings map to `None`, otherwise `int(val)` which raises `ValueError` on a
non-integer literal. -/
def ParseDatatype.integer (p : ParseDatatype) (val : Option String) :
    Except Err (Option Int) :=
  match val with
  | Option.none => Except.ok Option.none
  | Option.some v =>
    if p.number_NA.contains v then Except.ok Option.none
    else
      match parseIntLit v with
      | some n => Except.ok (some n)
      | none =>
        Except.error (Err.valueError
          ("invalid literal for int() with base 10: " ++ v))

/-- `ParseDatatype.real` (alias `float`). -/
def ParseDatatype.real (p : ParseDatatype) (val : Option String) :
    Except Err (Option Rat) :=
  match val with
  | Option.none => Except.ok Option.none
  | Option.some v =>
    if p.number_NA.contains v then Except.ok Option.none
    else
      match parseRealLit v with
      | some q => Except.ok (some q)
      | none =>
        Except.error (Err.valueError
          ("could not convert string to float: " ++ v))

/-- `ParseDatatype.string` (alias `str`). -/
def ParseDatatype.string (p : ParseDatatype) (val : Option String) :
    Option String :=
  match val with
  | Option.none => Option.none
  | Option.some v =>
    if p.string_NA.contains v then Option.none else Option.some v

/-- `ParseDatatype.typed_val`, producing a `PyVal` so the record can mix
datatypes. -/
def ParseDatatype.typed_val (p : ParseDatatype) (typename : String)
    (val : Option String) : Except Err PyVal :=
  if typename = "string" then
    match p.string val with
    | Option.none => Except.ok PyVal.none
    | Option.some s => Except.ok (PyVal.str s)
  else if typename = "real" then
    match p.real val with
    | Except.error e => Except.error e
    | Except.ok Option.none => Except.ok PyVal.none
    | Except.ok (Option.some q) => Except.ok (PyVal.real q)
  else if typename = "integer" then
    match p.integer val with
    | Except.error e => Except.error e
    | Except.ok Option.none => Except.ok PyVal.none
    | Except.ok (Option.some n) => Except.ok (PyVal.int n)
  else
    Except.error (Err.valueError ("Unknown type " ++ typename))

/-! ## The schema object (read_key.py data structures) -/

/-- A compiled regular expression as the core uses it: the pattern text,
the named capture groups (`groupindex`), and matching against a string,
which yields the group dictionary (`None` for a group that did not
participate). The `re` module itself is an external collaborator; concrete
`Regex` values below implement the semantics of the concrete patterns the
claims mention. -/
structure Regex where
  pattern : String
  groupindex : List String
  mtch : String → Option (List (String × Option String))

/-- A value stored in `KeyFile.globals`: `epsg_code` holds an `int`,
`maxskippct` a `float`, `dllre` a compiled regex, everything else a
string. -/
inductive GVal : Type
  | int (n : Int)
  | rat (q : Rat)
  | str (s : String)
  | re (r : Regex)

/-- Python truthiness of a `GVal` (only the `str` case is ever tested by
the source: `if kf.globals['dllcol']:`). -/
def GVal.truthy : GVal → Bool
  | GVal.int n => n ≠ 0
  | GVal.rat q => q ≠ 0
  | GVal.str s => s ≠ ""
  | GVal.re _ => true

/-- The `KeyFile` object: `globals`, `hdr_to_id`, `ids` as built by
`read_key.KeyFile`. -/
structure KeyFile where
  globals : List (String × GVal)
  hdr_to_id : List (String × String)
  ids : List (String × List (String × String))

/-- `kf.globals[k]` (subscript read: `KeyError` when absent). -/
def glookup (kf : KeyFile) (k : String) : Except Err GVal :=
  match dget kf.globals k with
  | some v => Except.ok v
  | none => Except.error (Err.keyError k)

/-- `raw_record.get(key)` where `key` is a value from `globals`: only a
string key can hit a header of the row. -/
def rawGet (raw : List (String × String)) (gv : GVal) : Option String :=
  match gv with
  | GVal.str s => dget raw s
  | _ => none

/-- `m.group(k)`: `IndexError` when the pattern has no such group. -/
def mgroup (m : List (String × Option String)) (k : String) :
    Except Err (Option String) :=
  match dget m k with
  | some v => Except.ok v
  | none => Except.error (Err.indexError ("no such group " ++ k))

/-! ## CSVToGeoJSON.py: process_data_row -/

/-- Module-level `DATA_PARSE = parse_datatypes.ParseDatatype(number_NA=[''])`. -/
def DATA_PARSE : ParseDatatype := { number_NA := [""], string_NA := [] }

/-- Text a `GVal` contributes when interpolated into a message (the
source only ever interpolates string-valued globals here). -/
def gvalText : GVal → String
  | GVal.str s => s
  | GVal.int n => toString n
  | GVal.rat q => toString q.num ++ "/" ++ toString q.den
  | GVal.re r => r.pattern

/-- Outcome of `process_data_row`: the `(retval, None)` or `(None, msg)`
tuple of the source. -/
inductive Outcome : Type
  | record (r : List (String × PyVal))
  | skip (msg : String)
deriving DecidableEq

/-- Message of the combined-column strategy when `dllre` does not match
(source line 80). -/
def noMatchMsg (line : Nat) (c : String) (val : Option String)
    (pat : String) : String :=
  "CSV row " ++ toString line ++ " column " ++ c ++ " is '" ++
    fmtOptStr val ++ "', which does not matches the pattern " ++ pat

/-- Message when the matched lat/lon fails to parse (source line 91). -/
def badLLMsg (line : Nat) (c : String) (val : Option String)
    (pat : String) : String :=
  "CSV row " ++ toString line ++ " column " ++ c ++ " is '" ++
    fmtOptStr val ++ "', which does not yeild a valid lat/lon with pattern "
    ++ pat

/-- Message when the matched lat/lon is a sentinel/`None` (source line 99). -/
def blankLLMsg (line : Nat) (c : String) (val : Option String)
    (pat : String) : String :=
  "CSV row " ++ toString line ++ " column " ++ c ++ " is '" ++
    fmtOptStr val ++ "', which yeilds a blank lat/lon with pattern " ++ pat

/-- Message of the fatal re-raise for a non-location capture group
(source line 112). -/
def groupFatalMsg (line : Nat) (c : String) (val : String) (k : String)
    (datatype : String) (pat : String) : String :=
  "CSV row " ++ toString line ++ " column " ++ c ++ " is '" ++ val ++
    "', which does not yeild a valid " ++ k ++ " of " ++ datatype ++
    " with pattern " ++ pat

/-- Message of the direct-column strategy skips (source lines 123 and
133; the source interpolates `kf.globals['dlatcol']` for both column
names — a faithful copy of that slip). -/
def directLLMsg (line : Nat) (dlatcol : String) (dlatval dlonval : String) :
    String :=
  "CSV row " ++ toString line ++ " columns " ++ dlatcol ++ " and " ++
    dlatcol ++ " are '" ++ dlatval ++ "' and '" ++ dlonval ++
    "', which does not yeild a valid lat/lon"

/-- Message of the fatal re-raise in the per-identifier loop (source
line 148). -/
def idFatalMsg (line : Nat) (c : String) (val : String) (datatype : String) :
    String :=
  "CSV row " ++ toString line ++ " column " ++ c ++ " is '" ++ val ++
    "', which does not yeild a valid " ++ datatype ++ "."

/-- The loop over `m.groupdict()` of the combined-column strategy
(source lines 106–117): every named capture group besides `dlat`/`dlon`
that names a declared identifier is converted with `parse_typed`; a
`ValueError` there is re-raised (fatal). -/
def groupLoop (kf : KeyFile) (dllv : GVal) (raw : List (String × String))
    (line : Nat) (pat : String) (m : List (String × Option String))
    (retval : List (String × PyVal)) : Except Err (List (String × PyVal)) :=
  m.foldlM
    (fun acc kv =>
      if kv.1 = "dlat" ∨ kv.1 = "dlon" then Except.ok acc
      else if dmem kf.ids kv.1 then
        match dget kf.ids kv.1 with
        | Option.none => Except.error (Err.keyError kv.1)
        | Option.some attrs =>
          match dget attrs "datatype" with
          | Option.none => Except.error (Err.keyError "datatype")
          | Option.some dt =>
            match DATA_PARSE.typed_val dt kv.2 with
            | Except.error (Err.valueError _) =>
              Except.error (Err.valueError
                (groupFatalMsg line (gvalText dllv)
                  ((rawGet raw dllv).getD "") kv.1 dt pat))
            | Except.error e => Except.error e
            | Except.ok v => Except.ok (dinsert acc kv.1 v)
      else Except.ok acc)
    retval

/-- The loop over `kf.ids` (source lines 141–152): every declared
identifier other than the position names whose `csv_header` is non-empty
is read from the raw row and converted; a `ValueError` is re-raised
(fatal). -/
def idsLoop (kf : KeyFile) (raw : List (String × String)) (line : Nat)
    (retval : List (String × PyVal)) : Except Err (List (String × PyVal)) :=
  kf.ids.foldlM
    (fun acc idattrs =>
      if idattrs.1 = "dlat" ∨ idattrs.1 = "dlon" then Except.ok acc
      else
        match dget idattrs.2 "csv_header" with
        | Option.none => Except.error (Err.keyError "csv_header")
        | Option.some hdr =>
          if hdr = "" then Except.ok acc
          else
            match dget idattrs.2 "datatype" with
            | Option.none => Except.error (Err.keyError "datatype")
            | Option.some dt =>
              match DATA_PARSE.typed_val dt (dget raw hdr) with
              | Except.error (Err.valueError _) =>
                Except.error (Err.valueError
                  (idFatalMsg line hdr ((dget raw hdr).getD "") dt))
              | Except.error e => Except.error e
              | Except.ok v => Except.ok (dinsert acc idattrs.1 v))
    retval

/-- Lift an optional parsed real into a record value. -/
def pvOfReal : Option Rat → PyVal
  | Option.none => PyVal.none
  | Option.some q => PyVal.real q

/-- `process_data_row(args, kf, raw_record, line_num)` (CSVToGeoJSON.py,
lines 54–154).  Cells are stripped in place; then the strategy is selected
by `kf.globals['dllcol']` — a subscript read, which raises `KeyError` when
the key is absent; a missing-location outcome is the `(None, msg)` tuple
(`Outcome.skip`), a parse failure of a non-location field raises
`ValueError`. -/
def process_data_row (kf : KeyFile) (raw0 : List (String × String))
    (line : Nat) : Except Err Outcome := do
  let raw := raw0.map (fun kv => (kv.1, pyStrip kv.2))
  let retval : List (String × PyVal) :=
    [("dlat", PyVal.none), ("dlon", PyVal.none)]
  let dllv ← glookup kf "dllcol"
  if dllv.truthy then
    let dllreV ← glookup kf "dllre"
    let r ← match dllreV with
      | GVal.re r => pure r
      | _ => Except.error (Err.attributeError "match")
    match r.mtch ((rawGet raw dllv).getD "") with
    | Option.none =>
      return Outcome.skip (noMatchMsg line (gvalText dllv) (rawGet raw dllv)
        r.pattern)
    | Option.some m =>
      let g1 ← mgroup m "dlat"
      match DATA_PARSE.real g1 with
      | Except.error (Err.valueError _) =>
        return Outcome.skip (badLLMsg line (gvalText dllv) (rawGet raw dllv)
          r.pattern)
      | Except.error e => Except.error e
      | Except.ok dlatv =>
        let g2 ← mgroup m "dlon"
        match DATA_PARSE.real g2 with
        | Except.error (Err.valueError _) =>
          return Outcome.skip (badLLMsg line (gvalText dllv)
            (rawGet raw dllv) r.pattern)
        | Except.error e => Except.error e
        | Except.ok dlonv =>
          let retval := dinsert (dinsert retval "dlat" (pvOfReal dlatv))
            "dlon" (pvOfReal dlonv)
          if dget retval "dlat" = some PyVal.none ∨
              dget retval "dlon" = some PyVal.none then
            return Outcome.skip (blankLLMsg line (gvalText dllv)
              (rawGet raw dllv) r.pattern)
          else
            let retval ← groupLoop kf dllv raw line r.pattern m retval
            let retval ← idsLoop kf raw line retval
            return Outcome.record retval
  else
    let latcolv ← glookup kf "dlatcol"
    match DATA_PARSE.real (rawGet raw latcolv) with
    | Except.error (Err.valueError _) =>
      let loncolv ← glookup kf "dloncol"
      return Outcome.skip (directLLMsg line (gvalText latcolv)
        ((rawGet raw latcolv).getD "") ((rawGet raw loncolv).getD ""))
    | Except.error e => Except.error e
    | Except.ok dlatv =>
      let loncolv ← glookup kf "dloncol"
      match DATA_PARSE.real (rawGet raw loncolv) with
      | Except.error (Err.valueError _) =>
        return Outcome.skip (directLLMsg line (gvalText latcolv)
          ((rawGet raw latcolv).getD "") ((rawGet raw loncolv).getD ""))
      | Except.error e => Except.error e
      | Except.ok dlonv =>
        let retval := dinsert (dinsert retval "dlat" (pvOfReal dlatv))
          "dlon" (pvOfReal dlonv)
        if dget retval "dlat" = some PyVal.none ∨
            dget retval "dlon" = some PyVal.none then
          return Outcome.skip (directLLMsg line (gvalText latcolv)
            (fmtOptStr (rawGet raw latcolv)) (fmtOptStr (rawGet raw loncolv)))
        else
          let retval ← idsLoop kf raw line retval
          return Outcome.record retval

/-! ## read_key.py: the schema parser -/

/-- The external collaborators of the schema parser, as capability
interfaces: `osgeo.osr`'s EPSG resolution, the codec registry consulted by
`'A'.encode(name)`, and `re.compile`. -/
structure Caps where
  resolveEPSG : Int → Bool
  knownEncoding : String → Bool
  compileRE : String → Option Regex

/-- The recognized global-section keys (read_key.py line 146). -/
def expectedGlobalKeys : List String :=
  ["source", "epsg_code", "dlatcol", "dloncol", "dllcol", "dllre",
   "encoding", "maxskippct"]

/-- The `for row in reader` loop of `_read_globals` (read_key.py lines
148–220): strip, stop at a blank-key row (consuming it), validate the key,
skip blank values, parse/validate per key.  Returns the accumulated dict,
the unconsumed rows, and the line count consumed so far. -/
def readGlobalsLoop (caps : Caps) :
    List (List String) → Nat → List (String × GVal) →
    Except Err (List (String × GVal) × List (List String) × Nat)
  | [], line, acc => Except.ok (acc, [], line)
  | row0 :: rest, line, acc =>
    let row := row0.map pyStrip
    let line := line + 1
    if row.length < 1 ∨ row.headD "" = "" then Except.ok (acc, rest, line)
    else
      let key := row.headD ""
      if ¬ expectedGlobalKeys.contains key then
        Except.error (Err.valueError
          ("row " ++ toString line ++ " has an invalid key, '" ++ key ++
           "'. Please use one of the expected keys"))
      else if row.length < 2 ∨ row.getD 1 "" = "" then
        readGlobalsLoop caps rest line acc
      else
        let v := row.getD 1 ""
        if key = "epsg_code" then
          match parseIntLit v with
          | none =>
            Except.error (Err.valueError
              ("The EPSG code in row " ++ toString line ++ ", '" ++ v ++
               "' is not an integer."))
          | some n =>
            if caps.resolveEPSG n then
              readGlobalsLoop caps rest line (dinsert acc key (GVal.int n))
            else
              Except.error (Err.valueError
                ("The EPSG code in row " ++ toString line ++ ", '" ++ v ++
                 "' is not recognized."))
        else if key = "maxskippct" then
          match parseRealLit v with
          | none =>
            Except.error (Err.valueError
              ("The max skip percentage row " ++ toString line ++ ", '" ++
               v ++ "' is not a number."))
          | some q =>
            if q < mkRat 0 1 ∨ mkRat 99 1 < q then
              Except.error (Err.valueError
                ("The max skip percentage row " ++ toString line ++ ", '" ++
                 v ++ "' is not between 0 and 99."))
            else
              readGlobalsLoop caps rest line (dinsert acc key (GVal.rat q))
        else if key = "dllre" then
          match caps.compileRE v with
          | none =>
            Except.error (Err.valueError
              ("The dllre regular expression in row " ++ toString line ++
               ", '" ++ v ++ "' does not compile."))
          | some r =>
            if ¬ r.groupindex.contains "dlat" then
              Except.error (Err.valueError
                ("The dllre regular expression in row " ++ toString line ++
                 ", '" ++ v ++ "' does not have a capture for dlat."))
            else if ¬ r.groupindex.contains "dlon" then
              Except.error (Err.valueError
                ("The dllre regular expression in row " ++ toString line ++
                 ", '" ++ v ++ "' does not have a capture for dlon."))
            else
              readGlobalsLoop caps rest line (dinsert acc key (GVal.re r))
        else if key = "encoding" then
          if caps.knownEncoding v then
            readGlobalsLoop caps rest line (dinsert acc key (GVal.str v))
          else
            Except.error (Err.valueError
              ("The encoding in row " ++ toString line ++ ", '" ++ v ++
               "' is not valid."))
        else
          readGlobalsLoop caps rest line (dinsert acc key (GVal.str v))

/-- `KeyFile._read_globals` (read_key.py lines 145–243): the row loop,
then defaults and whole-set sanity checks.  Returns the globals dict, the
rows left for the column section, and the number of lines consumed. -/
def KeyFile.readGlobals (caps : Caps) (rows : List (List String)) :
    Except Err (List (String × GVal) × List (List String) × Nat) := do
  let (acc, rest, line) ← readGlobalsLoop caps rows 0 []
  let acc := if dmem acc "encoding" then acc
    else dinsert acc "encoding" (GVal.str "utf-8")
  let acc := if dmem acc "maxskippct" then acc
    else dinsert acc "maxskippct" (GVal.rat (mkRat 0 1))
  if ¬ dmem acc "epsg_code" then
    Except.error (Err.valueError "Required epsg_code is missing")
  else if dmem acc "dlatcol" ∧ ¬ dmem acc "dloncol" then
    Except.error (Err.valueError "If dlatcol is present, dloncol is required")
  else if dmem acc "dloncol" ∧ ¬ dmem acc "dlatcol" then
    Except.error (Err.valueError "If dloncol is present, dlatcol is required")
  else if dmem acc "dllcol" ∧ ¬ dmem acc "dllre" then
    Except.error (Err.valueError "If dllcol is present, dllre is required")
  else if dmem acc "dllcol" ∧ dmem acc "dlatcol" then
    Except.error (Err.valueError
      "Only one of (dlatcol,dloncol) or (dllcol,dllre) may be specified")
  else Except.ok (acc, rest, line)

/-- Identifier pattern `^[a-zA-Z][_a-zA-Z0-9]+$` (read_key.py line 292):
a letter followed by ONE or more letters/digits/underscores — note the
`+`, so the total length is at least two. -/
def idpatMatch (s : String) : Bool :=
  match s.data with
  | [] => false
  | c :: rest =>
    c.isAlpha ∧ rest ≠ [] ∧ rest.all (fun d => d = '_' ∨ d.isAlpha ∨ d.isDigit)

/-- Loop state of `_read_cols`: the growing column grid (column-major),
the first-cell→line-number map, the enumerate counter and the blank-row
counter. -/
structure ColState where
  colgrid : List (List String)
  name_line : List (String × Nat)
  recno : Nat
  blanks : Nat

/-- One iteration of the `for recno, row in enumerate(reader)` loop of
`_read_cols` (read_key.py lines 253–276). -/
def colLoopStep (line : Nat) (st : ColState) (row0 : List String) :
    ColState :=
  let row := row0.map pyStrip
  if row.all (· = "") then
    { st with recno := st.recno + 1, blanks := st.blanks + 1 }
  else
    let name_line := dinsert st.name_line (row.headD "") line
    let missing := row.length - st.colgrid.length
    let colgrid := st.colgrid ++
      List.replicate missing (List.replicate (st.recno - st.blanks) "")
    let colgrid := colgrid.enum.map (fun jc => jc.2 ++ [row.getD jc.1 ""])
    { colgrid := colgrid, name_line := name_line, recno := st.recno + 1,
      blanks := st.blanks }

/-- The whole row loop of `_read_cols`, recursively: `line` is the number
of lines the shared reader has consumed so far, so the next row is read
at `line + 1`. -/
def colLoopGo (line : Nat) : List (List String) → ColState → ColState
  | [], st => st
  | row :: rest, st => colLoopGo (line + 1) rest (colLoopStep (line + 1) st row)

/-- The whole row loop of `_read_cols`; `startLine` is the number of lines
the shared reader has already consumed. -/
def colLoop (startLine : Nat) (rows : List (List String)) : ColState :=
  colLoopGo startLine rows ⟨[], [], 0, 0⟩

/-- `colgrid[j][i]` (in-range by construction in the source). -/
def cellAt (colgrid : List (List String)) (j i : Nat) : String :=
  (colgrid.getD j []).getD i ""

/-- `list.index(x)`: index of the first occurrence (the source only calls
it for values known to be present). -/
def pyIndex (l : List String) (a : String) : Nat :=
  (l.findIdx? (· = a)).getD l.length

/-- The first per-column loop of `_read_cols` (read_key.py lines
293–308): build `hdr_to_id`, validate identifiers against the pattern
(`ValueError`), and for identifiers longer than 10 characters execute
`logging.warn` — which raises `NameError`, because read_key.py never
imports `logging`; finally seed `ids[id] = {}`. -/
def colsFirstStep (name_line : List (String × Nat))
    (colgrid : List (List String)) (hidx iidx : Nat)
    (hi : List (String × String) × List (String × List (String × String)))
    (j : Nat) :
    Except Err
      (List (String × String) × List (String × List (String × String))) :=
  let hdr := cellAt colgrid j hidx
  let id := cellAt colgrid j iidx
  let hdr_to_id :=
    if hdr ≠ "" ∧ id ≠ "" then dinsert hi.1 hdr id else hi.1
  if id ≠ "" then
    if ¬ idpatMatch id then
      Except.error (Err.valueError
        ("At row " ++ toString ((dget name_line "identifier").getD 0) ++
         ", the identifier for column " ++ hdr ++ ", '" ++ id ++
         "' is not valid. Identifiers must start with a letter, and " ++
         "contain only letters, numbers and underscores."))
    else if id.length > 10 then Except.error (Err.nameError "logging")
    else Except.ok (hdr_to_id, dinsert hi.2 id [])
  else Except.ok (hdr_to_id, hi.2)

def colsFirstLoop (name_line : List (String × Nat))
    (colgrid : List (List String)) (hidx iidx : Nat) :
    Except Err
      (List (String × String) × List (String × List (String × String))) :=
  (List.range' 1 (colgrid.length - 1)).foldlM
    (colsFirstStep name_line colgrid hidx iidx) ([], [])

/-- The second per-column loop of `_read_cols` (read_key.py lines
311–315): fill each declared identifier's attribute dict from its column,
attribute row by attribute row — a later column with the same identifier
overwrites value by value. -/
def colsSecondStep (colgrid : List (List String)) (iidx : Nat)
    (ids : List (String × List (String × String))) (j : Nat) :
    List (String × List (String × String)) :=
  let id := cellAt colgrid j iidx
  if id ≠ "" then
    let attrs := (dget ids id).getD []
    let attrs := (List.range (colgrid.getD j []).length).foldl
      (fun a i => dinsert a (cellAt colgrid 0 i) (cellAt colgrid j i))
      attrs
    dinsert ids id attrs
  else ids

def colsSecondLoop (colgrid : List (List String)) (iidx : Nat)
    (ids : List (String × List (String × String))) :
    List (String × List (String × String)) :=
  (List.range' 1 (colgrid.length - 1)).foldl (colsSecondStep colgrid iidx) ids

/-- The datatype validation of `_read_cols` (read_key.py lines 318–327). -/
def datatypeStep (_ : Unit) (p : String × List (String × String)) :
    Except Err Unit :=
  if p.1 ≠ "" then
    match dget p.2 "datatype" with
    | Option.none => Except.error (Err.keyError "datatype")
    | Option.some dt =>
      if dt = "" then
        Except.error (Err.valueError
          ("Data type for identifier " ++ p.1 ++ " cannot be blank"))
      else if ¬ (dt = "string" ∨ dt = "real" ∨ dt = "integer") then
        Except.error (Err.valueError
          ("Data type for identifier " ++ p.1 ++ " is '" ++ dt ++
           "' but must be one of string, real or integer"))
      else Except.ok ()
  else Except.ok ()

def datatypeCheck (ids : List (String × List (String × String))) :
    Except Err Unit :=
  ids.foldlM datatypeStep ()

/-- `KeyFile._read_cols` (read_key.py lines 246–329). -/
def KeyFile.readCols (startLine : Nat) (rows : List (List String)) :
    Except Err
      (List (String × String) × List (String × List (String × String))) := do
  let st := colLoop startLine rows
  if ¬ dmem st.name_line "csv_header" then
    Except.error (Err.valueError "Required field csv_header is missing")
  else if ¬ dmem st.name_line "identifier" then
    Except.error (Err.valueError "Required field identifier is missing")
  else if ¬ dmem st.name_line "datatype" then
    Except.error (Err.valueError "Required field datatype is missing")
  else
    let hidx := pyIndex (st.colgrid.headD []) "csv_header"
    let iidx := pyIndex (st.colgrid.headD []) "identifier"
    let (hdr_to_id, ids0) ← colsFirstLoop st.name_line st.colgrid hidx iidx
    let ids := colsSecondLoop st.colgrid iidx ids0
    datatypeCheck ids
    Except.ok (hdr_to_id, ids)

/-- `KeyFile.read` (read_key.py lines 135–142): both sections from one
shared reader. -/
def KeyFile.read (caps : Caps) (rows : List (List String)) :
    Except Err KeyFile := do
  let (g, rest, line) ← KeyFile.readGlobals caps rows
  let (h, i) ← KeyFile.readCols line rest
  Except.ok ⟨g, h, i⟩

/-! ## CSVToGeoJSON.py: check_cols (the validation pass) -/

/-- Python `len` on a record value, as used by
`len(record.get(sc, ''))`: only a string has a length; `None` (a
string-typed NA) raises `TypeError`. -/
def pyLen : PyVal → Except Err Nat
  | PyVal.str s => Except.ok s.length
  | PyVal.none =>
    Except.error (Err.typeError "object of type 'NoneType' has no len()")
  | _ => Except.error (Err.typeError "object has no len()")

/-- The per-record string-width update of `check_cols` (CSVToGeoJSON.py
lines 193–194). -/
def widthsUpdate (rec : List (String × PyVal)) (ws : List (String × Nat)) :
    Except Err (List (String × Nat)) :=
  ws.mapM (fun p => do
    let n ← match dget rec p.1 with
      | Option.none => pure 0
      | Option.some v => pyLen v
    pure (p.1, max p.2 n))

/-- The seed of the string-width table: `{k: 0 for k in kf.ids if
kf.ids[k]['datatype'] == 'string'}` (CSVToGeoJSON.py line 163). -/
def scwStep (acc : List (String × Nat))
    (p : String × List (String × String)) : Except Err (List (String × Nat)) :=
  match dget p.2 "datatype" with
  | Option.none => Except.error (Err.keyError "datatype")
  | Option.some dt =>
    Except.ok (if dt = "string" then dinsert acc p.1 0 else acc)

def scwInit (ids : List (String × List (String × String))) :
    Except Err (List (String × Nat)) :=
  ids.foldlM scwStep []

/-- The `for row in reader` scan of `check_cols` (CSVToGeoJSON.py lines
180–194), carried state `(str_col_widths, skipped_count, row_count)`;
`i` is the zero-based index of the next data row, so its
`reader.line_num` is `i + 2` (the header was line 1). -/
def scanRows (kf : KeyFile) (header : List String) :
    List (List String) → (List (String × Nat) × Nat × Nat) → Nat →
    Except Err (List (String × Nat) × Nat × Nat)
  | [], st, _ => Except.ok st
  | row :: rest, st, i => do
    let raw := dictOfPairs (header.zip row)
    match ← process_data_row kf raw (i + 2) with
    | Outcome.skip _ => scanRows kf header rest (st.1, st.2.1 + 1, st.2.2 + 1) (i + 1)
    | Outcome.record rec => do
      let scw ← widthsUpdate rec st.1
      scanRows kf header rest (scw, st.2.1, st.2.2 + 1) (i + 1)

/-- `check_cols(args, kf)` (CSVToGeoJSON.py lines 157–204), over the data
file's header row and data rows: seed the string-width table, check the
expected headers, scan every row through `process_data_row` counting
skips, then enforce `100.0*skipped_count/row_count > maxskippct` — the
division happens before anything else, so zero data rows raise
`ZeroDivisionError`. -/
def check_cols (kf : KeyFile) (header : List String)
    (rows : List (List String)) : Except Err (List (String × Nat)) := do
  let scw0 ← scwInit kf.ids
  match kf.hdr_to_id.find? (fun p => ¬ header.contains p.1) with
  | some p =>
    Except.error (Err.valueError
      ("Expected header column '" ++ p.1 ++ "' not present in data file."))
  | none =>
    let st ← scanRows kf header rows (scw0, 0, 0) 0
    let (scw, skipped, rowc) := st
    if rowc = 0 then Except.error Err.zeroDivisionError
    else
      let pctv ← match dget kf.globals "maxskippct" with
        | some v => pure v
        | none => Except.error (Err.keyError "maxskippct")
      let pct ← match pctv with
        | GVal.rat q => pure q
        | GVal.int n => pure (Rat.divInt n 1)
        | _ =>
          Except.error (Err.typeError
            "'>' not supported between instances of 'float' and 'str'")
      if Rat.divInt (100 * (skipped : Int)) (rowc : Int) > pct then
        Except.error (Err.runtimeError
          ("Skipped " ++ toString skipped ++ " of " ++ toString rowc ++
           " rows for missing position, which is more than the " ++
           toString pct.num ++ "/" ++ toString pct.den ++
           " percent threshold"))
      else Except.ok scw

/-! ## Concrete artifacts used by the claims -/

/-- The character class `[-0-9.]` of the example `dllre` pattern. -/
def llClass (c : Char) : Bool := c = '-' ∨ c = '.' ∨ c.isDigit

/-- The pattern text `^(?P<dlat>[-0-9.]+),(?P<dlon>[-0-9.]+)$`. -/
def exPat : String := "^(?P<dlat>[-0-9.]+),(?P<dlon>[-0-9.]+)$"

/-- The compiled form of `exPat`.  Because `[-0-9.]` cannot match the
comma, a whole-string match exists exactly when the text splits at its
first comma into two non-empty runs of class characters, with `dlat`
capturing the first and `dlon` the second — which is what this match
function computes. -/
def exRe : Regex := {
  pattern := exPat
  groupindex := ["dlat", "dlon"]
  mtch := fun s =>
    let a := s.data.takeWhile (· ≠ ',')
    let rest := s.data.dropWhile (· ≠ ',')
    match rest with
    | ',' :: b =>
      if a ≠ [] ∧ b ≠ [] ∧ a.all llClass ∧ b.all llClass then
        some [("dlat", some ⟨a⟩), ("dlon", some ⟨b⟩)]
      else none
    | _ => none }

/-- Concrete capabilities for closed evaluations: EPSG 4326 resolves, the
usual encodings are known, and `exPat` compiles to `exRe`. -/
def caps0 : Caps := {
  resolveEPSG := fun n => n = 4326
  knownEncoding := fun s => s = "utf-8" ∨ s = "latin1"
  compileRE := fun s => if s = exPat then some exRe else none }

/-- A direct-column schema: `epsg_code=4326, dlatcol=latitude,
dloncol=longitude` with defaults applied, exactly as
`KeyFile.readGlobals` builds it (no `dllcol` key). -/
def kfDirect : KeyFile := {
  globals := [("epsg_code", GVal.int 4326), ("dlatcol", GVal.str "latitude"),
              ("dloncol", GVal.str "longitude"), ("encoding", GVal.str "utf-8"),
              ("maxskippct", GVal.rat (mkRat 0 1))]
  hdr_to_id := []
  ids := [] }

/-- `kfDirect` with an additional falsy `dllcol` entry — not producible
by the schema parser, but it lets the direct-column branch of
`process_data_row` be reached, exhibiting what that branch itself does. -/
def kfDirectF : KeyFile :=
  { kfDirect with globals := kfDirect.globals ++ [("dllcol", GVal.str "")] }

/-- A combined-column schema over header `loc` with the example pattern
and `maxskippct=17`. -/
def kfComb : KeyFile := {
  globals := [("epsg_code", GVal.int 4326), ("dllcol", GVal.str "loc"),
              ("dllre", GVal.re exRe), ("encoding", GVal.str "utf-8"),
              ("maxskippct", GVal.rat (mkRat 17 1))]
  hdr_to_id := []
  ids := [] }

/-- Did the computation raise `ValueError` (the class read_key.py and
CSVToGeoJSON.py raise for schema/threshold-style failures)? -/
def isValueError {α : Type} : Except Err α → Bool
  | Except.error (Err.valueError _) => true
  | _ => false

/-- Did the computation raise `NameError`? -/
def isNameError {α : Type} : Except Err α → Bool
  | Except.error (Err.nameError _) => true
  | _ => false

/-- Did the computation raise `RuntimeError` (the threshold failure)? -/
def isRuntimeError {α : Type} : Except Err α → Bool
  | Except.error (Err.runtimeError _) => true
  | _ => false

/-- Did the computation succeed? -/
def isOk {α : Type} : Except Err α → Bool
  | Except.ok _ => true
  | _ => false

/-- Is this row outcome a recoverable location skip? -/
def isSkip : Except Err Outcome → Bool
  | Except.ok (Outcome.skip _) => true
  | _ => false

/-- Project the record out of a row outcome. -/
def recOf : Except Err Outcome → Option (List (String × PyVal))
  | Except.ok (Outcome.record r) => some r
  | _ => Option.none

/-! ## Claims -/

/-- A minimal column section declaring one identifier. -/
def oneIdCols (id : String) : List (List String) :=
  [["csv_header", "h"], ["identifier", id], ["datatype", "string"]]

/-- The compiled form of
`^(?P<dlat>[0-9]+),(?P<dlon>[0-9]+);(?P<num>.*)$` (with `re.DOTALL`):
`dlat`/`dlon` are digit runs, which cannot contain the comma or the
semicolon, so the split points are the first comma and the first
semicolon; `num` takes everything after the semicolon. -/
def exRe2 : Regex := {
  pattern := "^(?P<dlat>[0-9]+),(?P<dlon>[0-9]+);(?P<num>.*)$"
  groupindex := ["dlat", "dlon", "num"]
  mtch := fun s =>
    let before := s.data.takeWhile (· ≠ ';')
    let rest := s.data.dropWhile (· ≠ ';')
    match rest with
    | ';' :: after =>
      let a := before.takeWhile (· ≠ ',')
      let r2 := before.dropWhile (· ≠ ',')
      match r2 with
      | ',' :: b =>
        if a ≠ [] ∧ b ≠ [] ∧ a.all Char.isDigit ∧ b.all Char.isDigit then
          some [("dlat", some ⟨a⟩), ("dlon", some ⟨b⟩),
                ("num", some ⟨after⟩)]
        else none
      | _ => none
    | _ => none }

/-- The compiled form of `^(?P<dlat>[0-9]*),(?P<dlon>[0-9]*)$`: like
`exRe`, but the digit runs may be empty, so a capture can be the empty
string (an NA sentinel for `parse_real`). -/
def exRe3 : Regex := {
  pattern := "^(?P<dlat>[0-9]*),(?P<dlon>[0-9]*)$"
  groupindex := ["dlat", "dlon"]
  mtch := fun s =>
    let a := s.data.takeWhile (· ≠ ',')
    let rest := s.data.dropWhile (· ≠ ',')
    match rest with
    | ',' :: b =>
      if a.all Char.isDigit ∧ b.all Char.isDigit then
        some [("dlat", some ⟨a⟩), ("dlon", some ⟨b⟩)]
      else none
    | _ => none }

/-- `kfComb` extended with a declared integer identifier `num` (empty
`csv_header`) and `exRe2` as the pattern, so the third capture group
feeds `parse_typed`. -/
def kfComb2 : KeyFile := {
  globals := [("epsg_code", GVal.int 4326), ("dllcol", GVal.str "loc"),
              ("dllre", GVal.re exRe2), ("encoding", GVal.str "utf-8"),
              ("maxskippct", GVal.rat (mkRat 0 1))]
  hdr_to_id := []
  ids := [("num", [("csv_header", ""), ("identifier", "num"),
                   ("datatype", "integer")])] }

/-- `kfComb` with `exRe3` as the pattern. -/
def kfComb3 : KeyFile :=
  { kfComb with globals := [("epsg_code", GVal.int 4326),
      ("dllcol", GVal.str "loc"), ("dllre", GVal.re exRe3),
      ("encoding", GVal.str "utf-8"), ("maxskippct", GVal.rat (mkRat 0 1))] }

/-- The number of data rows the scan skips: rows whose extraction yields
the `(None, msg)` outcome, at their 1-based reader line numbers. -/
def skipCount (kf : KeyFile) (header : List String) :
    List (List String) → Nat → Nat
  | [], _ => 0
  | row :: rest, i =>
    (if isSkip (process_data_row kf (dictOfPairs (header.zip row)) (i + 2))
      then 1 else 0) + skipCount kf header rest (i + 1)

/-- The stripped non-blank rows of the column section: what the loop of
`_read_cols` actually accumulates. -/
def nbRows (rows : List (List String)) : List (List String) :=
  (rows.map (fun row => row.map pyStrip)).filter (fun r => ¬ r.all (· = ""))

/-- The grid's width: the longest row seen. -/
def maxW (R : List (List String)) : Nat :=
  R.foldr (fun r w => max r.length w) 0

/-- Column `j` of the grid: every row's `j`-th cell, blank-padded. -/
def colOf (R : List (List String)) (j : Nat) : List String :=
  R.map (fun r => r.getD j "")

/-- The full grid. -/
def gridOf (R : List (List String)) : List (List String) :=
  (List.range (maxW R)).map (colOf R)

def attrCell (R : List (List String)) (a : String) (j : Nat) : String :=
  ((R.find? (fun r => r.headD "" == a)).getD []).getD j ""

/- Relation between two ids maps: same identifiers in the same order,
with attribute dicts equal as lookup functions. -/
def IdsRel (ids ids' : List (String × List (String × String))) : Prop :=
  List.Forall₂ (fun p q => p.1 = q.1 ∧ ∀ a, dget p.2 a = dget q.2 a) ids ids'

/-- Does one global-section row pass `_read_globals`' per-row validation?
(Mirrors the branches of `readGlobalsLoop`.) -/
def gRowOk (caps : Caps) (row0 : List String) : Bool :=
  let row := row0.map pyStrip
  let key := row.headD ""
  if ¬ expectedGlobalKeys.contains key then false
  else if row.length < 2 ∨ row.getD 1 "" = "" then true
  else
    let v := row.getD 1 ""
    if key = "epsg_code" then
      match parseIntLit v with
      | none => false
      | some n => caps.resolveEPSG n
    else if key = "maxskippct" then
      match parseRealLit v with
      | none => false
      | some q => ¬ (q < mkRat 0 1 ∨ mkRat 99 1 < q)
    else if key = "dllre" then
      match caps.compileRE v with
      | none => false
      | some r => r.groupindex.contains "dlat" ∧ r.groupindex.contains "dlon"
    else if key = "encoding" then caps.knownEncoding v
    else true

/-- The store a passing global-section row performs. -/
def gStep (caps : Caps) (acc : List (String × GVal)) (row0 : List String) :
    List (String × GVal) :=
  let row := row0.map pyStrip
  let key := row.headD ""
  if row.length < 2 ∨ row.getD 1 "" = "" then acc
  else
    let v := row.getD 1 ""
    if key = "epsg_code" then
      dinsert acc key (GVal.int ((parseIntLit v).getD 0))
    else if key = "maxskippct" then
      dinsert acc key (GVal.rat ((parseRealLit v).getD (mkRat 0 1)))
    else if key = "dllre" then
      dinsert acc key (GVal.re ((caps.compileRE v).getD
        ⟨"", [], fun _ => none⟩))
    else dinsert acc key (GVal.str v)

def gEntry (caps : Caps) (row0 : List String) : Option (String × GVal) :=
  let row := row0.map pyStrip
  let key := row.headD ""
  if row.length < 2 ∨ row.getD 1 "" = "" then none
  else
    let v := row.getD 1 ""
    if key = "epsg_code" then some (key, GVal.int ((parseIntLit v).getD 0))
    else if key = "maxskippct" then
      some (key, GVal.rat ((parseRealLit v).getD (mkRat 0 1)))
    else if key = "dllre" then
      some (key, GVal.re ((caps.compileRE v).getD ⟨"", [], fun _ => none⟩))
    else some (key, GVal.str v)

def g8s : List (List String) :=
  [["epsg_code", "4326"], ["dlatcol", "lat"], ["dloncol", "lon"]]

def g8sP : List (List String) :=
  [["dloncol", "lon"], ["epsg_code", "4326"], ["dlatcol", "lat"]]

def c8s : List (List String) :=
  [["csv_header", "lat", "lon", "name"],
   ["identifier", "dlat2", "dlon2", "name2"],
   ["datatype", "real", "real", "string"]]

def c8sP : List (List String) :=
  [["identifier", "dlat2", "dlon2", "name2"],
   ["csv_header", "lat", "lon", "name"],
   ["datatype", "real", "real", "string"]]

def csDup : List (List String) :=
  [["csv_header", "h1", "h2"],
   ["identifier", "dup", "dup"],
   ["datatype", "integer", "integer"],
   ["shortname:en", "First Name", "Second Name"]]

def recordIndex (rec : List (String × PyVal)) (c : String) :
    Except Err PyVal :=
  match dget rec c with
  | Option.some v => Except.ok v
  | Option.none => Except.error (Err.keyError c)

def kfC10 : KeyFile := {
  globals := [("epsg_code", GVal.int 4326),
              ("dlatcol", GVal.str "latitude"),
              ("dloncol", GVal.str "longitude"),
              ("encoding", GVal.str "utf-8"),
              ("maxskippct", GVal.rat (mkRat 0 1)),
              ("dllcol", GVal.str "")]
  hdr_to_id := [("nm", "name")]
  ids := [("name", [("csv_header", "nm"), ("identifier", "name"),
                    ("datatype", "string")]),
          ("ghost", [("csv_header", ""), ("identifier", "ghost"),
                     ("datatype", "string")])] }

/-- `Except.bind` on an error short-circuits. -/
theorem except_bind_error {ε α β : Type} (e : ε) (f : α → Except ε β) :
    (Except.error e : Except ε α) >>= f = Except.error e := rfl

/-- `Except.bind` on a success applies the continuation. -/
theorem except_bind_ok {ε α β : Type} (a : α) (f : α → Except ε β) :
    (Except.ok a : Except ε α) >>= f = f a := rfl

/-! ## Outcome classifiers -/

/-- **C1.** The spec says a direct-column schema (`epsg_code=4326,
dlatcol=latitude, dloncol=longitude`) extracts `{"latitude":"37.5",
"longitude":"-122.3"}` into a `Record` with `dlat=37.5, dlon=-122.3`.
The code instead evaluates `kf.globals['dllcol']` to select the strategy,
and a schema built for the direct-column strategy has no `dllcol` key, so
every row raises an uncaught `KeyError` (first conjunct: any schema whose
globals lack `dllcol`; second: the spec's concrete example).  The third
conjunct shows the direct-column branch itself does exactly what the
claim says once it can be reached (here via an artificial falsy `dllcol`
entry): `dlat=37.5=75/2`, `dlon=-122.3=-1223/10`. -/
theorem C1_direct_strategy_keyerror :
    (∀ (kf : KeyFile) (raw : List (String × String)) (line : Nat),
      dget kf.globals "dllcol" = Option.none →
      process_data_row kf raw line = Except.error (Err.keyError "dllcol")) ∧
    process_data_row kfDirect [("latitude", "37.5"), ("longitude", "-122.3")] 2
      = Except.error (Err.keyError "dllcol") ∧
    process_data_row kfDirectF [("latitude", "37.5"), ("longitude", "-122.3")] 2
      = Except.ok (Outcome.record
          [("dlat", PyVal.real (mkRat 75 2)),
           ("dlon", PyVal.real (mkRat (-1223) 10))]) := by
  refine ⟨?_, by decide, by decide⟩
  intro kf raw line h
  simp [process_data_row, glookup, h, except_bind_error]

/-- Witness for C1: the hypothesis of the first conjunct discharged at
the spec's own example schema and row. -/
theorem C1_direct_strategy_keyerror_witness :
    process_data_row kfDirect [("latitude", "37.5"), ("longitude", "-122.3")] 2
      = Except.error (Err.keyError "dllcol") :=
  C1_direct_strategy_keyerror.1 kfDirect
    [("latitude", "37.5"), ("longitude", "-122.3")] 2 rfl

/-- `scwInit`'s fold succeeds whenever every declared identifier carries
a `datatype` attribute. -/
theorem scwFold_ok (ids : List (String × List (String × String)))
    (acc : List (String × Nat))
    (h : ∀ p ∈ ids, dmem p.2 "datatype" = true) :
    ∃ w, ids.foldlM scwStep acc = Except.ok w := by
  induction ids generalizing acc with
  | nil => exact ⟨acc, rfl⟩
  | cons p rest ih =>
    have hp := h p (List.mem_cons_self p rest)
    rw [dmem] at hp
    cases hdt : dget p.2 "datatype" with
    | none => rw [hdt] at hp; simp at hp
    | some dt =>
      rw [List.foldlM_cons]
      have hstep : scwStep acc p =
          Except.ok (if dt = "string" then dinsert acc p.1 0 else acc) := by
        rw [scwStep, hdt]
      rw [hstep, except_bind_ok]
      exact ih _ (fun q hq => h q (List.mem_cons_of_mem p hq))

/-- **C2.** On a data file with zero data rows, `check_cols` reaches
`100.0*skipped_count/row_count` with `row_count == 0` and crashes with an
unclassified `ZeroDivisionError` instead of the threshold failure the
spec mandates.  General form: any schema whose identifiers all carry a
`datatype` and whose referenced headers are all present; concrete form:
the combined-column example schema. -/
theorem C2_zero_rows_zero_division :
    (∀ (kf : KeyFile) (header : List String),
      (∀ p ∈ kf.ids, dmem p.2 "datatype" = true) →
      (∀ p ∈ kf.hdr_to_id, header.contains p.1 = true) →
      check_cols kf header [] = Except.error Err.zeroDivisionError) ∧
    check_cols kfComb ["loc"] [] = Except.error Err.zeroDivisionError := by
  refine ⟨?_, by decide⟩
  intro kf header h1 h2
  obtain ⟨w, hw⟩ := scwFold_ok kf.ids [] h1
  have hfind : kf.hdr_to_id.find? (fun p => ¬ header.contains p.1) = none := by
    rw [List.find?_eq_none]
    intro p hp
    simpa using h2 p hp
  rw [check_cols, scwInit, hw, except_bind_ok, hfind]
  rfl

/-- Witness for C2: the general conjunct discharged at the example
schema. -/
theorem C2_zero_rows_zero_division_witness :
    check_cols kfComb ["loc"] [] = Except.error Err.zeroDivisionError :=
  C2_zero_rows_zero_division.1 kfComb ["loc"] (by decide) (by decide)

/-- **C3.** Identifier validation.  The claim says every identifier
matching `^[A-Za-z][A-Za-z0-9_]{0,9}$` — single characters included — is
accepted, and a length-11 identifier is rejected with `SchemaError`.  The
code's pattern is `^[a-zA-Z][_a-zA-Z0-9]+$` (note the `+`), so the
single-character identifier `a` is REJECTED with `ValueError` (conjunct
3), although the file's own comment says identifiers are 1–10 characters;
and a length-11 identifier reaches `logging.warn` with `logging` never
imported, so it raises `NameError` (conjunct 4), not a `SchemaError`.
Identifiers with a space or a leading digit are rejected as the claim
says (conjuncts 5 and 6); 2- and 10-character identifiers are accepted
(conjuncts 1 and 2). -/
theorem C3_identifier_validation :
    isOk (KeyFile.readCols 0 (oneIdCols "ab")) = true ∧
    isOk (KeyFile.readCols 0 (oneIdCols "abcdefghij")) = true ∧
    isValueError (KeyFile.readCols 0 (oneIdCols "a")) = true ∧
    isNameError (KeyFile.readCols 0 (oneIdCols "abcdefghijk")) = true ∧
    isValueError (KeyFile.readCols 0 (oneIdCols "a b")) = true ∧
    isValueError (KeyFile.readCols 0 (oneIdCols "9ab")) = true := by
  decide

/-- **C4.** Global-section cross-checks.  The claim says each of these
fails: missing `epsg_code` (conjunct 2); `dlatcol` without `dloncol` and
`dloncol` without `dlatcol` (conjuncts 3, 4); `dllcol` without `dllre`
(conjunct 5); both strategies together (conjunct 6) — all true.  But the
claim also says `dllre` WITHOUT `dllcol` fails; the code has no such
check, and conjunct 1 shows that key file passing the global section
validation. -/
theorem C4_global_section_checks :
    isOk (KeyFile.readGlobals caps0
      [["epsg_code", "4326"], ["dllre", exPat]]) = true ∧
    isValueError (KeyFile.readGlobals caps0
      [["dlatcol", "latitude"], ["dloncol", "longitude"]]) = true ∧
    isValueError (KeyFile.readGlobals caps0
      [["epsg_code", "4326"], ["dlatcol", "latitude"]]) = true ∧
    isValueError (KeyFile.readGlobals caps0
      [["epsg_code", "4326"], ["dloncol", "longitude"]]) = true ∧
    isValueError (KeyFile.readGlobals caps0
      [["epsg_code", "4326"], ["dllcol", "loc"]]) = true ∧
    isValueError (KeyFile.readGlobals caps0
      [["epsg_code", "4326"], ["dlatcol", "latitude"],
       ["dloncol", "longitude"], ["dllcol", "loc"], ["dllre", exPat]])
      = true := by
  refine ⟨?_, by decide, by decide, by decide, by decide, ?_⟩ <;> decide

/-- **C7.** The NA-sentinel parsing rules of `ParseDatatype`: `None`
passes through, a sentinel maps to `None`, otherwise the text is parsed
as an integer (resp. real) literal with `ValueError` exactly on invalid
literals; and the three concrete `parse_real` cases with
`number_NA={''}` (which is precisely the module-level `DATA_PARSE`). -/
theorem C7_parse_datatype_na_rules :
    (∀ p : ParseDatatype,
      p.integer Option.none = Except.ok Option.none ∧
      p.real Option.none = Except.ok Option.none) ∧
    (∀ (p : ParseDatatype) (v : String), p.number_NA.contains v = true →
      p.integer (some v) = Except.ok Option.none ∧
      p.real (some v) = Except.ok Option.none) ∧
    (∀ (p : ParseDatatype) (v : String), p.number_NA.contains v = false →
      (∀ n, parseIntLit v = some n → p.integer (some v) = Except.ok (some n)) ∧
      (parseIntLit v = none → isValueError (p.integer (some v)) = true) ∧
      (∀ q, parseRealLit v = some q → p.real (some v) = Except.ok (some q)) ∧
      (parseRealLit v = none → isValueError (p.real (some v)) = true)) ∧
    DATA_PARSE.real (some "") = Except.ok Option.none ∧
    DATA_PARSE.real (some "3.14") = Except.ok (some (mkRat 157 50)) ∧
    isValueError (DATA_PARSE.real (some "abc")) = true := by
  refine ⟨fun p => ⟨rfl, rfl⟩, ?_, ?_, by decide, by decide, by decide⟩
  · intro p v h
    constructor
    · rw [ParseDatatype.integer, if_pos h]
    · rw [ParseDatatype.real, if_pos h]
  · intro p v h
    refine ⟨?_, ?_, ?_, ?_⟩
    · intro n hn
      rw [ParseDatatype.integer, if_neg (by simp only [h]; exact Bool.false_ne_true), hn]
    · intro hn
      rw [ParseDatatype.integer, if_neg (by simp only [h]; exact Bool.false_ne_true), hn]
      rfl
    · intro q hq
      rw [ParseDatatype.real, if_neg (by simp only [h]; exact Bool.false_ne_true), hq]
    · intro hq
      rw [ParseDatatype.real, if_neg (by simp only [h]; exact Bool.false_ne_true), hq]
      rfl

/-- Witness for C7: the sentinel rule and the literal rules discharged
at concrete inputs. -/
theorem C7_parse_datatype_na_rules_witness :
    DATA_PARSE.integer (some "") = Except.ok Option.none ∧
    DATA_PARSE.integer (some "42") = Except.ok (some 42) ∧
    isValueError (DATA_PARSE.integer (some "4.2")) = true := by
  refine ⟨(C7_parse_datatype_na_rules.2.1 DATA_PARSE "" (by decide)).1,
    ((C7_parse_datatype_na_rules.2.2.1 DATA_PARSE "42" (by decide)).1 42
      (by decide)),
    ((C7_parse_datatype_na_rules.2.2.1 DATA_PARSE "4.2" (by decide)).2.1
      (by decide))⟩

/-! ## C5: combined-column strategy -/

/-- Writing `dlat` into the fresh retval dict. -/
theorem dinsert_d1 (v : PyVal) :
    dinsert [("dlat", PyVal.none), ("dlon", PyVal.none)] "dlat" v =
      [("dlat", v), ("dlon", PyVal.none)] := rfl

/-- Writing `dlon` after `dlat`. -/
theorem dinsert_d2 (v1 v2 : PyVal) :
    dinsert [("dlat", v1), ("dlon", PyVal.none)] "dlon" v2 =
      [("dlat", v1), ("dlon", v2)] := rfl

/-- Reading `dlat` back. -/
theorem dget_d1 (v1 v2 : PyVal) :
    dget [("dlat", v1), ("dlon", v2)] "dlat" = some v1 := rfl

/-- Reading `dlon` back. -/
theorem dget_d2 (v1 v2 : PyVal) :
    dget [("dlat", v1), ("dlon", v2)] "dlon" = some v2 := rfl

/-- Once the location has been extracted, the rest of `process_data_row`
can only produce a record or raise — never a skip. -/
theorem isSkip_bind_record {α : Type} (x : Except Err α)
    (f : α → Except Err (List (String × PyVal))) :
    isSkip (x >>= fun rv => f rv >>= fun rv2 =>
      Except.ok (Outcome.record rv2)) = false := by
  cases x with
  | error e => rfl
  | ok a =>
    rw [except_bind_ok]
    cases hfa : f a with
    | error e => rw [except_bind_error]; rfl
    | ok b => rw [except_bind_ok]; rfl

/-- **C5.** Combined-column strategy classification.  With the schema
giving `dllcol = c` (non-empty) and a compiled `dllre = r`, and writing
`raw'` for the stripped row: (1) no match yields the recoverable skip
with the no-match diagnostic; (2)/(3) a `ValueError` from parsing the
`dlat` (resp. `dlon`) capture yields the recoverable skip with the
bad-lat/lon diagnostic; (4) either captured position resolving to
`None`/a sentinel yields the recoverable skip with the blank-lat/lon
diagnostic; (5) on a successful match with usable positions the run
continues exactly as the capture-group loop followed by the identifier
loop, wrapped as a record — so (6) past that point no skip is possible:
any conversion failure propagates as a raised error; (7)–(9) each skip
diagnostic carries the row number, the column name, the raw value and
the pattern text. -/
theorem C5_combined_strategy_classification :
    (∀ (kf : KeyFile) (raw : List (String × String)) (line : Nat)
      (c : String) (r : Regex),
      dget kf.globals "dllcol" = some (GVal.str c) → c ≠ "" →
      dget kf.globals "dllre" = some (GVal.re r) →
      r.mtch ((dget (raw.map (fun kv => (kv.1, pyStrip kv.2))) c).getD "")
        = none →
      process_data_row kf raw line =
        Except.ok (Outcome.skip (noMatchMsg line c
          (dget (raw.map (fun kv => (kv.1, pyStrip kv.2))) c) r.pattern))) ∧
    (∀ (kf : KeyFile) (raw : List (String × String)) (line : Nat)
      (c : String) (r : Regex) (m : List (String × Option String))
      (g1 : Option String) (e1 : String),
      dget kf.globals "dllcol" = some (GVal.str c) → c ≠ "" →
      dget kf.globals "dllre" = some (GVal.re r) →
      r.mtch ((dget (raw.map (fun kv => (kv.1, pyStrip kv.2))) c).getD "")
        = some m →
      mgroup m "dlat" = Except.ok g1 →
      DATA_PARSE.real g1 = Except.error (Err.valueError e1) →
      process_data_row kf raw line =
        Except.ok (Outcome.skip (badLLMsg line c
          (dget (raw.map (fun kv => (kv.1, pyStrip kv.2))) c) r.pattern))) ∧
    (∀ (kf : KeyFile) (raw : List (String × String)) (line : Nat)
      (c : String) (r : Regex) (m : List (String × Option String))
      (g1 g2 : Option String) (d1 : Option Rat) (e2 : String),
      dget kf.globals "dllcol" = some (GVal.str c) → c ≠ "" →
      dget kf.globals "dllre" = some (GVal.re r) →
      r.mtch ((dget (raw.map (fun kv => (kv.1, pyStrip kv.2))) c).getD "")
        = some m →
      mgroup m "dlat" = Except.ok g1 →
      DATA_PARSE.real g1 = Except.ok d1 →
      mgroup m "dlon" = Except.ok g2 →
      DATA_PARSE.real g2 = Except.error (Err.valueError e2) →
      process_data_row kf raw line =
        Except.ok (Outcome.skip (badLLMsg line c
          (dget (raw.map (fun kv => (kv.1, pyStrip kv.2))) c) r.pattern))) ∧
    (∀ (kf : KeyFile) (raw : List (String × String)) (line : Nat)
      (c : String) (r : Regex) (m : List (String × Option String))
      (g1 g2 : Option String) (d1 d2 : Option Rat),
      dget kf.globals "dllcol" = some (GVal.str c) → c ≠ "" →
      dget kf.globals "dllre" = some (GVal.re r) →
      r.mtch ((dget (raw.map (fun kv => (kv.1, pyStrip kv.2))) c).getD "")
        = some m →
      mgroup m "dlat" = Except.ok g1 →
      DATA_PARSE.real g1 = Except.ok d1 →
      mgroup m "dlon" = Except.ok g2 →
      DATA_PARSE.real g2 = Except.ok d2 →
      d1 = none ∨ d2 = none →
      process_data_row kf raw line =
        Except.ok (Outcome.skip (blankLLMsg line c
          (dget (raw.map (fun kv => (kv.1, pyStrip kv.2))) c) r.pattern))) ∧
    (∀ (kf : KeyFile) (raw : List (String × String)) (line : Nat)
      (c : String) (r : Regex) (m : List (String × Option String))
      (g1 g2 : Option String) (q1 q2 : Rat),
      dget kf.globals "dllcol" = some (GVal.str c) → c ≠ "" →
      dget kf.globals "dllre" = some (GVal.re r) →
      r.mtch ((dget (raw.map (fun kv => (kv.1, pyStrip kv.2))) c).getD "")
        = some m →
      mgroup m "dlat" = Except.ok g1 →
      DATA_PARSE.real g1 = Except.ok (some q1) →
      mgroup m "dlon" = Except.ok g2 →
      DATA_PARSE.real g2 = Except.ok (some q2) →
      process_data_row kf raw line =
        (groupLoop kf (GVal.str c) (raw.map (fun kv => (kv.1, pyStrip kv.2)))
            line r.pattern m
            [("dlat", PyVal.real q1), ("dlon", PyVal.real q2)]) >>=
          fun rv =>
            (idsLoop kf (raw.map (fun kv => (kv.1, pyStrip kv.2))) line rv) >>=
              fun rv2 => Except.ok (Outcome.record rv2)) ∧
    (∀ (kf : KeyFile) (raw : List (String × String)) (line : Nat)
      (c : String) (r : Regex) (m : List (String × Option String))
      (g1 g2 : Option String) (q1 q2 : Rat),
      dget kf.globals "dllcol" = some (GVal.str c) → c ≠ "" →
      dget kf.globals "dllre" = some (GVal.re r) →
      r.mtch ((dget (raw.map (fun kv => (kv.1, pyStrip kv.2))) c).getD "")
        = some m →
      mgroup m "dlat" = Except.ok g1 →
      DATA_PARSE.real g1 = Except.ok (some q1) →
      mgroup m "dlon" = Except.ok g2 →
      DATA_PARSE.real g2 = Except.ok (some q2) →
      isSkip (process_data_row kf raw line) = false) ∧
    (∀ (line : Nat) (c : String) (val : Option String) (pat : String),
      noMatchMsg line c val pat = "CSV row " ++ toString line ++
        " column " ++ c ++ " is '" ++ fmtOptStr val ++
        "', which does not matches the pattern " ++ pat) ∧
    (∀ (line : Nat) (c : String) (val : Option String) (pat : String),
      badLLMsg line c val pat = "CSV row " ++ toString line ++
        " column " ++ c ++ " is '" ++ fmtOptStr val ++
        "', which does not yeild a valid lat/lon with pattern " ++ pat) ∧
    (∀ (line : Nat) (c : String) (val : Option String) (pat : String),
      blankLLMsg line c val pat = "CSV row " ++ toString line ++
        " column " ++ c ++ " is '" ++ fmtOptStr val ++
        "', which yeilds a blank lat/lon with pattern " ++ pat) := by
  refine ⟨?_, ?_, ?_, ?_, ?_, ?_,
    fun _ _ _ _ => rfl, fun _ _ _ _ => rfl, fun _ _ _ _ => rfl⟩
  · intro kf raw line c r hc hcne hre hm
    simp [process_data_row, glookup, hc, hre, GVal.truthy, hcne,
      except_bind_ok, rawGet, hm, gvalText, pure, Except.pure]
  · intro kf raw line c r m g1 e1 hc hcne hre hm hg1 hp1
    simp [process_data_row, glookup, hc, hre, GVal.truthy, hcne,
      except_bind_ok, rawGet, hm, hg1, hp1, gvalText, pure, Except.pure]
  · intro kf raw line c r m g1 g2 d1 e2 hc hcne hre hm hg1 hp1 hg2 hp2
    simp [process_data_row, glookup, hc, hre, GVal.truthy, hcne,
      except_bind_ok, rawGet, hm, hg1, hp1, hg2, hp2, gvalText, pure,
      Except.pure]
  · intro kf raw line c r m g1 g2 d1 d2 hc hcne hre hm hg1 hp1 hg2 hp2 hnone
    rcases hnone with h | h
    · subst h
      simp [process_data_row, glookup, hc, hre, GVal.truthy, hcne,
        except_bind_ok, rawGet, hm, hg1, hp1, hg2, hp2, gvalText, pure,
        Except.pure, dinsert_d1, dinsert_d2, dget_d1, dget_d2, pvOfReal]
    · subst h
      simp [process_data_row, glookup, hc, hre, GVal.truthy, hcne,
        except_bind_ok, rawGet, hm, hg1, hp1, hg2, hp2, gvalText, pure,
        Except.pure, dinsert_d1, dinsert_d2, dget_d1, dget_d2, pvOfReal]
  · intro kf raw line c r m g1 g2 q1 q2 hc hcne hre hm hg1 hp1 hg2 hp2
    simp [process_data_row, glookup, hc, hre, GVal.truthy, hcne,
      except_bind_ok, rawGet, hm, hg1, hp1, hg2, hp2, gvalText, pure,
      Except.pure, dinsert_d1, dinsert_d2, dget_d1, dget_d2, pvOfReal]
  · intro kf raw line c r m g1 g2 q1 q2 hc hcne hre hm hg1 hp1 hg2 hp2
    have heq : process_data_row kf raw line =
        (groupLoop kf (GVal.str c)
            (raw.map (fun kv => (kv.1, pyStrip kv.2))) line r.pattern m
            [("dlat", PyVal.real q1), ("dlon", PyVal.real q2)]) >>=
          fun rv =>
            (idsLoop kf (raw.map (fun kv => (kv.1, pyStrip kv.2))) line rv)
              >>= fun rv2 => Except.ok (Outcome.record rv2) := by
      simp [process_data_row, glookup, hc, hre, GVal.truthy, hcne,
        except_bind_ok, rawGet, hm, hg1, hp1, hg2, hp2, gvalText, pure,
        Except.pure, dinsert_d1, dinsert_d2, dget_d1, dget_d2, pvOfReal]
    rw [heq, isSkip_bind_record]

/-- Witness for C5: the classification discharged at concrete inputs —
`"bogus"` does not match (skip); `"1.2.3,4"` matches but the latitude
does not parse (skip); `"1,"` matches with an empty longitude capture
(skip); `"1,2;x"` matches but the declared integer group `num` fails
conversion, which is a raised `ValueError` carrying the group's fatal
diagnostic, not a skip. -/
theorem C5_combined_strategy_classification_witness :
    isSkip (process_data_row kfComb [("loc", "bogus")] 2) = true ∧
    isSkip (process_data_row kfComb [("loc", "1.2.3,4")] 2) = true ∧
    isSkip (process_data_row kfComb3 [("loc", "1,")] 2) = true ∧
    process_data_row kfComb2 [("loc", "1,2;x")] 2 =
      Except.error (Err.valueError
        (groupFatalMsg 2 "loc" "1,2;x" "num" "integer" exRe2.pattern)) ∧
    isSkip (process_data_row kfComb2 [("loc", "1,2;x")] 2) = false := by
  refine ⟨?_, ?_, ?_, ?_, ?_⟩
  · rw [C5_combined_strategy_classification.1 kfComb [("loc", "bogus")] 2
      "loc" exRe rfl (by decide) rfl (by decide)]
    rfl
  · rw [C5_combined_strategy_classification.2.1 kfComb [("loc", "1.2.3,4")]
      2 "loc" exRe [("dlat", some "1.2.3"), ("dlon", some "4")]
      (some "1.2.3") "could not convert string to float: 1.2.3"
      rfl (by decide) rfl (by decide) (by decide) (by decide)]
    rfl
  · rw [C5_combined_strategy_classification.2.2.2.1 kfComb3 [("loc", "1,")]
      2 "loc" exRe3 [("dlat", some "1"), ("dlon", some "")]
      (some "1") (some "") (some (mkRat 1 1)) Option.none
      rfl (by decide) rfl (by decide) (by decide) (by decide) (by decide)
      (by decide) (Or.inr rfl)]
    rfl
  · exact (C5_combined_strategy_classification.2.2.2.2.1 kfComb2
      [("loc", "1,2;x")] 2 "loc" exRe2
      [("dlat", some "1"), ("dlon", some "2"), ("num", some "x")]
      (some "1") (some "2") (mkRat 1 1) (mkRat 2 1)
      rfl (by decide) rfl (by decide) (by decide) (by decide) (by decide)
      (by decide)).trans (by decide)
  · exact C5_combined_strategy_classification.2.2.2.2.2.1 kfComb2
      [("loc", "1,2;x")] 2 "loc" exRe2
      [("dlat", some "1"), ("dlon", some "2"), ("num", some "x")]
      (some "1") (some "2") (mkRat 1 1) (mkRat 2 1)
      rfl (by decide) rfl (by decide) (by decide) (by decide) (by decide)
      (by decide)

/-! ## C6: the skip-percentage threshold -/

/-- When the scan of `check_cols` completes, its row counter is the
number of data rows and its skip counter is `skipCount`. -/
theorem scanRows_counts (kf : KeyFile) (header : List String)
    (rows : List (List String)) :
    ∀ (st : List (String × Nat) × Nat × Nat) (i : Nat)
      (w : List (String × Nat)) (s n : Nat),
      scanRows kf header rows st i = Except.ok (w, s, n) →
      s = st.2.1 + skipCount kf header rows i ∧
      n = st.2.2 + rows.length := by
  induction rows with
  | nil =>
    intro st i w s n h
    rw [scanRows] at h
    cases h
    simp [skipCount]
  | cons row rest ih =>
    intro st i w s n h
    rw [scanRows] at h
    cases hp : process_data_row kf (dictOfPairs (header.zip row)) (i + 2) with
    | error e => rw [hp] at h; exact absurd h (by simp [except_bind_error])
    | ok o =>
      rw [hp, except_bind_ok] at h
      cases o with
      | skip msg =>
        obtain ⟨hs, hn⟩ := ih _ _ _ _ _ h
        refine ⟨?_, ?_⟩
        · rw [hs]; simp [skipCount, isSkip, hp]; ring
        · rw [hn]; simp; ring
      | record rec =>
        dsimp only at h
        cases hwu : widthsUpdate rec st.1 with
        | error e => rw [hwu] at h; exact absurd h (by simp [except_bind_error])
        | ok scw =>
          rw [hwu, except_bind_ok] at h
          obtain ⟨hs, hn⟩ := ih _ _ _ _ _ h
          refine ⟨?_, ?_⟩
          · rw [hs]; simp [skipCount, isSkip, hp]
          · rw [hn]; simp; ring

/-- **C6.** The validation pass fails with the threshold `RuntimeError`
exactly when `100*skipped/total > maxskippct` (strict), provided the scan
itself completed and there was at least one row; and the spec's boundary
instance: with `maxskippct=17` over 100 rows, 17 skips pass and 18 skips
raise the threshold error. -/
theorem C6_threshold_boundary :
    (∀ (kf : KeyFile) (header : List String) (rows : List (List String))
      (scw0 w : List (String × Nat)) (s n : Nat) (pct : Rat),
      scwInit kf.ids = Except.ok scw0 →
      (∀ p ∈ kf.hdr_to_id, header.contains p.1 = true) →
      scanRows kf header rows (scw0, 0, 0) 0 = Except.ok (w, s, n) →
      dget kf.globals "maxskippct" = some (GVal.rat pct) →
      n ≠ 0 →
      s = skipCount kf header rows 0 ∧ n = rows.length ∧
      (isRuntimeError (check_cols kf header rows) = true ↔
        Rat.divInt (100 * (s : Int)) (n : Int) > pct) ∧
      (isOk (check_cols kf header rows) = true ↔
        ¬ Rat.divInt (100 * (s : Int)) (n : Int) > pct)) ∧
    check_cols kfComb ["loc"]
      (List.replicate 83 ["37.1,-122.2"] ++ List.replicate 17 ["bogus"])
      = Except.ok [] ∧
    isRuntimeError (check_cols kfComb ["loc"]
      (List.replicate 82 ["37.1,-122.2"] ++ List.replicate 18 ["bogus"]))
      = true := by
  refine ⟨?_, by decide, by decide⟩
  intro kf header rows scw0 w s n pct hscw h1 hscan hpct hn
  obtain ⟨hs0, hn0⟩ := scanRows_counts kf header rows (scw0, 0, 0) 0 w s n hscan
  have hfind : kf.hdr_to_id.find? (fun p => ¬ header.contains p.1) = none := by
    rw [List.find?_eq_none]
    intro p hp
    simpa using h1 p hp
  have hcc : check_cols kf header rows =
      (if Rat.divInt (100 * (s : Int)) (n : Int) > pct then
        Except.error (Err.runtimeError
          ("Skipped " ++ toString s ++ " of " ++ toString n ++
           " rows for missing position, which is more than the " ++
           toString pct.num ++ "/" ++ toString pct.den ++
           " percent threshold"))
      else Except.ok w) := by
    rw [check_cols, hscw, except_bind_ok, hfind]
    dsimp only
    rw [hscan, except_bind_ok]
    dsimp only
    rw [if_neg hn, hpct]
    rfl
  refine ⟨by simpa using hs0, by simpa using hn0, ?_, ?_⟩
  · rw [hcc]
    by_cases hgt : Rat.divInt (100 * (s : Int)) (n : Int) > pct
    · rw [if_pos hgt]
      exact ⟨fun _ => hgt, fun _ => rfl⟩
    · rw [if_neg hgt]
      exact Iff.intro (fun hf => nomatch hf) (fun hg => absurd hg hgt)
  · rw [hcc]
    by_cases hgt : Rat.divInt (100 * (s : Int)) (n : Int) > pct
    · rw [if_pos hgt]
      exact Iff.intro (fun hf => nomatch hf) (fun hng => absurd hgt hng)
    · rw [if_neg hgt]
      exact ⟨fun _ => hgt, fun _ => rfl⟩

/-- Witness for C6: the general boundary rule applied to a one-row file
that skips its only row with `maxskippct=17`: `100*1/1 > 17`, so the
threshold error fires. -/
theorem C6_threshold_boundary_witness :
    isRuntimeError (check_cols kfComb ["loc"] [["bogus"]]) = true :=
  ((C6_threshold_boundary.1 kfComb ["loc"] [["bogus"]] [] [] 1 1
    (mkRat 17 1) rfl (by decide) (by decide) rfl
    (by decide)).2.2.1).mpr (by decide)

/-! ## Dictionary lemmas -/

/-- Reading back through an insertion. -/
theorem dget_dinsert {α : Type} (d : List (String × α)) (k a : String) (v : α) :
    dget (dinsert d k v) a = if a = k then some v else dget d a := by
  induction d with
  | nil =>
    by_cases h : a = k
    · subst h; simp [dinsert, dget]
    · simp [dinsert, dget, List.find?, beq_false_of_ne (Ne.symm h), h]
  | cons p rest ih =>
    by_cases hk : p.1 = k
    · by_cases ha : a = k
      · subst ha; subst hk
        simp [dinsert, dget, List.find?]
      · simp [dinsert, dget, List.find?, beq_iff_eq.mpr hk,
          beq_false_of_ne (Ne.symm ha), beq_false_of_ne (hk ▸ Ne.symm ha), ha]
    · by_cases ha : a = p.1
      · subst ha
        simp [dinsert, dget, List.find?, beq_false_of_ne hk]
        rw [if_neg hk]
      · simp [dinsert, dget, List.find?, beq_false_of_ne hk,
          beq_false_of_ne (Ne.symm ha)] at ih ⊢
        rw [ih]

/-- Membership through an insertion. -/
theorem dmem_dinsert {α : Type} (d : List (String × α)) (k a : String) (v : α) :
    dmem (dinsert d k v) a = ((a == k) || dmem d a) := by
  rw [dmem, dget_dinsert]
  by_cases h : a = k
  · simp [h]
  · simp [h, beq_false_of_ne h, dmem]

/-! ## The column grid as a function of the stripped non-blank rows -/

theorem maxW_foldr_init (R : List (List String)) (a : Nat) :
    R.foldr (fun r w => max r.length w) a = max (maxW R) a := by
  induction R with
  | nil => simp [maxW]
  | cons r rest ih =>
    simp only [maxW, List.foldr_cons] at ih ⊢
    rw [ih]
    exact (max_assoc _ _ _).symm

theorem maxW_append_single (R : List (List String)) (r : List String) :
    maxW (R ++ [r]) = max (maxW R) r.length := by
  rw [maxW, List.foldr_append, List.foldr_cons, List.foldr_nil,
    maxW_foldr_init]
  omega

theorem length_le_maxW (R : List (List String)) (r : List String)
    (h : r ∈ R) : r.length ≤ maxW R := by
  induction R with
  | nil => cases h
  | cons q rest ih =>
    rcases List.mem_cons.mp h with h | h
    · subst h
      simp only [maxW, List.foldr_cons]
      exact le_sup_left
    · have := ih h
      simp only [maxW, List.foldr_cons]
      exact le_trans this le_sup_right

theorem colOf_append_single (R : List (List String)) (r : List String)
    (j : Nat) : colOf (R ++ [r]) j = colOf R j ++ [r.getD j ""] := by
  simp [colOf]

theorem colOf_of_maxW_le (R : List (List String)) (j : Nat)
    (h : maxW R ≤ j) : colOf R j = List.replicate R.length "" := by
  rw [colOf, List.eq_replicate]
  refine ⟨by simp, ?_⟩
  intro b hb
  rw [List.mem_map] at hb
  obtain ⟨r, hr, hrb⟩ := hb
  have := length_le_maxW R r hr
  rw [← hrb, List.getD_eq_default]
  omega

theorem gridOf_length (R : List (List String)) :
    (gridOf R).length = maxW R := by
  simp [gridOf]

theorem gridOf_pad (R : List (List String)) (L : Nat) :
    gridOf R ++ List.replicate (L - maxW R) (List.replicate R.length "") =
      (List.range (max (maxW R) L)).map (colOf R) := by
  have hmax : max (maxW R) L = maxW R + (L - maxW R) := by omega
  rw [hmax, List.range_add, List.map_append, gridOf]
  congr 1
  rw [List.map_map]
  symm
  rw [List.eq_replicate]
  constructor
  · simp
  · intro b hb
    rw [List.mem_map] at hb
    obtain ⟨t, ht, htb⟩ := hb
    rw [← htb]
    simp only [Function.comp]
    exact colOf_of_maxW_le R _ (by omega)

theorem enum_map_range {α : Type} (n : Nat) (f : Nat → α) :
    ((List.range n).map f).enum = (List.range n).map (fun j => (j, f j)) := by
  rw [List.enum_eq_zip_range, List.length_map, List.length_range]
  have h := List.zip_map' id f (List.range n)
  rw [List.map_id] at h
  rw [h]
  simp

theorem gridOf_append_single (R : List (List String)) (r : List String) :
    gridOf (R ++ [r]) =
      (gridOf R ++ List.replicate (r.length - (gridOf R).length)
          (List.replicate R.length "")).enum.map
        (fun jc => jc.2 ++ [r.getD jc.1 ""]) := by
  rw [gridOf_length, gridOf_pad, enum_map_range, List.map_map, gridOf,
    maxW_append_single]
  apply List.map_congr_left
  intro j hj
  simp only [Function.comp]
  exact colOf_append_single R r j

theorem nbRows_cons_blank (row : List String) (rest : List (List String))
    (hb : (row.map pyStrip).all (· = "") = true) :
    nbRows (row :: rest) = nbRows rest := by
  simp only [nbRows, List.map_cons, List.filter_cons, hb, not_true,
    decide_False, Bool.false_eq_true, if_false]

theorem nbRows_cons_nonblank (row : List String) (rest : List (List String))
    (hb : ¬ (row.map pyStrip).all (· = "") = true) :
    nbRows (row :: rest) = (row.map pyStrip) :: nbRows rest := by
  simp only [nbRows, List.map_cons, List.filter_cons, hb, not_false_iff,
    decide_True, if_true]
  simp

/-- A blank row only bumps the counters. -/
theorem colLoopStep_blank (line : Nat) (st : ColState) (row : List String)
    (h : (row.map pyStrip).all (· = "") = true) :
    colLoopStep line st row =
      { st with recno := st.recno + 1, blanks := st.blanks + 1 } := by
  rw [colLoopStep, if_pos h]

/-- A non-blank row extends the grid by one entry per column. -/
theorem colLoopStep_nonblank (line : Nat) (st : ColState) (row : List String)
    (R : List (List String))
    (h : ¬ (row.map pyStrip).all (· = "") = true)
    (hg : st.colgrid = gridOf R)
    (hrb : st.recno - st.blanks = R.length) :
    colLoopStep line st row =
      { colgrid := gridOf (R ++ [row.map pyStrip])
        name_line := dinsert st.name_line ((row.map pyStrip).headD "") line
        recno := st.recno + 1
        blanks := st.blanks } := by
  rw [colLoopStep, if_neg h]
  simp only [hg, hrb, ColState.mk.injEq]
  exact ⟨(gridOf_append_single R (row.map pyStrip)).symm, trivial, trivial,
    trivial⟩

theorem colLoopGo_spec (rows : List (List String)) :
    ∀ (line : Nat) (st : ColState) (R0 : List (List String)),
      st.colgrid = gridOf R0 → st.recno - st.blanks = R0.length →
      st.blanks ≤ st.recno →
      (colLoopGo line rows st).colgrid = gridOf (R0 ++ nbRows rows) ∧
      (colLoopGo line rows st).recno - (colLoopGo line rows st).blanks =
        (R0 ++ nbRows rows).length ∧
      (colLoopGo line rows st).blanks ≤ (colLoopGo line rows st).recno ∧
      (∀ a, dmem (colLoopGo line rows st).name_line a =
        ((nbRows rows).any (fun r => a == r.headD "") ||
          dmem st.name_line a)) := by
  induction rows with
  | nil =>
    intro line st R0 hg hrb hble
    simp [colLoopGo, nbRows, hg, hrb, hble]
  | cons row rest ih =>
    intro line st R0 hg hrb hble
    rw [colLoopGo]
    by_cases hb : (row.map pyStrip).all (· = "") = true
    · rw [colLoopStep_blank _ _ _ hb, nbRows_cons_blank _ _ hb]
      exact ih _ _ R0 hg (by simpa using hrb) (by simp; omega)
    · rw [colLoopStep_nonblank _ _ _ R0 hb hg hrb, nbRows_cons_nonblank _ _ hb]
      obtain ⟨h1, h2, h3, h4⟩ := ih (line + 1)
        { colgrid := gridOf (R0 ++ [row.map pyStrip])
          name_line := dinsert st.name_line ((row.map pyStrip).headD "")
            (line + 1)
          recno := st.recno + 1
          blanks := st.blanks }
        (R0 ++ [row.map pyStrip]) rfl (by simp; omega) (by simp; omega)
      refine ⟨by simpa using h1, by simpa using h2, h3, ?_⟩
      intro a
      rw [h4 a]
      dsimp only
      rw [dmem_dinsert]
      simp only [List.any_cons]
      simp [Bool.or_assoc, Bool.or_comm, Bool.or_left_comm]

theorem colLoop_spec (startLine : Nat) (rows : List (List String)) :
    (colLoop startLine rows).colgrid = gridOf (nbRows rows) ∧
    (∀ a, dmem (colLoop startLine rows).name_line a =
      (nbRows rows).any (fun r => a == r.headD "")) := by
  obtain ⟨h1, _, _, h4⟩ := colLoopGo_spec rows startLine ⟨[], [], 0, 0⟩ []
    rfl rfl (le_refl 0)
  exact ⟨by simpa using h1, fun a => by simpa [dmem, dget] using h4 a⟩

theorem headD_eq_getD_zero (r : List String) : r.headD "" = r.getD 0 "" := by
  cases r <;> rfl

theorem getD_map_range {α : Type} (n j : Nat) (f : Nat → α) (d : α) :
    ((List.range n).map f).getD j d = if j < n then f j else d := by
  by_cases h : j < n
  · rw [List.getD_eq_getElem?_getD, List.getElem?_map, List.getElem?_range h]
    simp [h]
  · rw [List.getD_eq_getElem?_getD, List.getElem?_map,
      List.getElem?_eq_none (by simpa using h)]
    simp [h]

theorem getD_map_list {α β : Type} (R : List α) (g : α → β) (i : Nat) (d : β)
    (dflt : α) :
    (R.map g).getD i d = if i < R.length then g (R.getD i dflt) else d := by
  by_cases h : i < R.length
  · rw [List.getD_eq_getElem?_getD, List.getElem?_map,
      List.getElem?_eq_getElem h]
    simp only [Option.map_some', Option.getD_some, if_pos h]
    congr 1
    rw [List.getD_eq_getElem?_getD, List.getElem?_eq_getElem h]
    rfl
  · rw [List.getD_eq_getElem?_getD, List.getElem?_map,
      List.getElem?_eq_none (by simpa using h)]
    simp [h]

theorem cellAt_gridOf (R : List (List String)) (j i : Nat) :
    cellAt (gridOf R) j i = (R.getD i []).getD j "" := by
  rw [cellAt, gridOf, getD_map_range]
  by_cases hj : j < maxW R
  · rw [if_pos hj, colOf, getD_map_list R _ i "" []]
    by_cases hi : i < R.length
    · rw [if_pos hi]
    · rw [if_neg hi, List.getD_eq_getElem?_getD (l := R),
        List.getElem?_eq_none (by simpa using hi)]
      simp
  · rw [if_neg hj]
    by_cases hi : i < R.length
    · have h1 : ([] : List String).getD i "" = "" := by
        rw [List.getD_eq_getElem?_getD, List.getElem?_eq_none (by simp)]
        rfl
      rw [h1]
      symm
      rw [List.getD_eq_getElem?_getD (l := R.getD i [])]
      rw [List.getElem?_eq_none]
      · rfl
      · have : R.getD i [] ∈ R := by
          rw [List.getD_eq_getElem?_getD, List.getElem?_eq_getElem hi]
          exact List.getElem_mem hi
        have := length_le_maxW R _ this
        omega
    · have h1 : ([] : List String).getD i "" = "" := by
        rw [List.getD_eq_getElem?_getD, List.getElem?_eq_none (by simp)]
        rfl
      rw [h1, List.getD_eq_getElem?_getD (l := R),
        List.getElem?_eq_none (by simpa using hi)]
      rfl

theorem getD_pyIndex_find (R : List (List String)) (a : String) :
    R.getD (pyIndex (colOf R 0) a) [] =
      (R.find? (fun r => r.headD "" == a)).getD [] := by
  induction R with
  | nil => simp [pyIndex, colOf]
  | cons r rest ih =>
    rw [pyIndex, colOf, List.map_cons, List.findIdx?_cons, List.find?_cons]
    by_cases h : r.getD 0 "" = a
    · rw [if_pos (by simpa using h)]
      rw [headD_eq_getD_zero] at *
      rw [show (r.getD 0 "" == a) = true from beq_iff_eq.mpr h]
      rfl
    · rw [if_neg (by simpa using h)]
      rw [headD_eq_getD_zero]
      rw [show (r.getD 0 "" == a) = false from beq_false_of_ne h]
      rw [List.findIdx?_succ]
      rw [pyIndex, colOf] at ih
      cases hfi : (rest.map (fun r => r.getD 0 "")).findIdx? (· = a) with
      | none =>
        rw [hfi] at ih
        simp only [Option.map_none']
        simp only [Option.getD_none] at ih ⊢
        rw [List.length_cons, List.getD_cons_succ]
        simpa using ih
      | some i =>
        rw [hfi] at ih
        simp only [Option.map_some', Option.getD_some] at ih ⊢
        simpa using ih

theorem cellAt_pyIndex (R : List (List String)) (a : String) (j : Nat) :
    cellAt (gridOf R) j (pyIndex (colOf R 0) a) = attrCell R a j := by
  rw [cellAt_gridOf, getD_pyIndex_find, attrCell]

theorem find?_perm_nodup {α : Type} (key : α → String) (a : String) :
    ∀ {R R' : List α}, R.Perm R' → ((R.map key).Nodup) →
    R.find? (fun r => key r == a) = R'.find? (fun r => key r == a) := by
  intro R R' hperm
  induction hperm with
  | nil => intro _; rfl
  | cons x p ih =>
    intro hnd
    rw [List.map_cons, List.nodup_cons] at hnd
    rw [List.find?_cons, List.find?_cons]
    cases hx : (key x == a) with
    | true => rfl
    | false => exact ih hnd.2
  | swap x y l =>
    intro hnd
    rw [List.map_cons, List.map_cons, List.nodup_cons, List.nodup_cons,
      List.mem_cons] at hnd
    rw [List.find?_cons, List.find?_cons, List.find?_cons, List.find?_cons]
    cases hx : (key x == a) with
    | true =>
      cases hy : (key y == a) with
      | true =>
        exfalso
        exact hnd.1 (Or.inl ((beq_iff_eq.mp hy).trans (beq_iff_eq.mp hx).symm))
      | false => rfl
    | false =>
      cases hy : (key y == a) with
      | true => rfl
      | false => rfl
  | trans p1 p2 ih1 ih2 =>
    intro hnd
    exact (ih1 hnd).trans (ih2 ((p1.map key).nodup_iff.mp hnd))

theorem any_perm {α : Type} (f : α → Bool) {l1 l2 : List α}
    (h : l1.Perm l2) : l1.any f = l2.any f := by
  cases h1 : l1.any f with
  | true =>
    rw [List.any_eq_true] at h1
    obtain ⟨x, hx, hfx⟩ := h1
    symm
    rw [List.any_eq_true]
    exact ⟨x, h.mem_iff.mp hx, hfx⟩
  | false =>
    symm
    rw [List.any_eq_false] at h1 ⊢
    intro x hx
    exact h1 x (h.mem_iff.mpr hx)

theorem all_perm {α : Type} (f : α → Bool) {l1 l2 : List α}
    (h : l1.Perm l2) : l1.all f = l2.all f := by
  cases h1 : l1.all f with
  | true =>
    symm
    rw [List.all_eq_true] at h1 ⊢
    intro x hx
    exact h1 x (h.mem_iff.mpr hx)
  | false =>
    symm
    rw [List.all_eq_false] at h1 ⊢
    obtain ⟨x, hx, hfx⟩ := h1
    exact ⟨x, h.mem_iff.mp hx, hfx⟩

theorem maxW_perm {R R' : List (List String)} (h : R.Perm R') :
    maxW R = maxW R' := by
  induction h with
  | nil => rfl
  | cons x p ih =>
    simp only [maxW, List.foldr_cons] at ih ⊢
    rw [ih]
  | swap x y l =>
    simp only [maxW, List.foldr_cons]
    rw [← max_assoc, ← max_assoc, max_comm y.length x.length]
  | trans p1 p2 ih1 ih2 => exact ih1.trans ih2

theorem dget_cons {α : Type} (p : String × α) (rest : List (String × α))
    (a : String) :
    dget (p :: rest) a = if p.1 = a then some p.2 else dget rest a := by
  by_cases h : p.1 = a
  · simp [dget, List.find?_cons, beq_iff_eq.mpr h, h]
  · simp [dget, List.find?_cons, beq_false_of_ne h, h]

theorem dget_eq_none_of_forall_ne {α : Type} (d : List (String × α))
    (a : String) (h : ∀ q ∈ d, q.1 ≠ a) : dget d a = none := by
  rw [dget, List.find?_eq_none.mpr]
  · rfl
  · intro q hq
    simp [beq_false_of_ne (h q hq)]

theorem dget_foldl_dinsert {α : Type} (ps : List (String × α)) :
    ∀ (d0 : List (String × α)) (a : String),
      ((ps.map Prod.fst).Nodup) →
      dget (ps.foldl (fun d p => dinsert d p.1 p.2) d0) a =
        (dget ps a).or (dget d0 a) := by
  induction ps with
  | nil => intro d0 a _; simp [dget]
  | cons p rest ih =>
    intro d0 a hnd
    rw [List.map_cons, List.nodup_cons] at hnd
    rw [List.foldl_cons, ih _ a hnd.2, dget_cons]
    by_cases h : p.1 = a
    · rw [if_pos h]
      have hrest : dget rest a = none := by
        apply dget_eq_none_of_forall_ne
        intro q hq hqa
        exact hnd.1 (h ▸ hqa ▸ List.mem_map_of_mem Prod.fst hq)
      rw [hrest, dget_dinsert, if_pos (h.symm), Option.none_or]
      rfl
    · rw [if_neg h, dget_dinsert, if_neg (fun hh => h hh.symm)]

theorem foldl_range_getD {α σ : Type} (R : List α) (dflt : α)
    (g : σ → α → σ) :
    ∀ (s : σ), (List.range R.length).foldl (fun d i => g d (R.getD i dflt)) s
      = R.foldl g s := by
  induction R with
  | nil => intro s; simp
  | cons r rest ih =>
    intro s
    rw [List.length_cons, List.range_succ_eq_map, List.foldl_cons,
      List.foldl_map, List.getD_cons_zero]
    simp only [List.getD_cons_succ]
    exact ih (g s r)

theorem dget_map_pair {α β : Type} (R : List α) (key : α → String)
    (val : α → β) (a : String) :
    dget (R.map (fun r => (key r, val r))) a =
      (R.find? (fun r => key r == a)).map val := by
  induction R with
  | nil => rfl
  | cons r rest ih =>
    rw [List.map_cons, dget_cons, List.find?_cons]
    by_cases h : key r = a
    · rw [if_pos h, show (key r == a) = true from beq_iff_eq.mpr h]
      rfl
    · rw [if_neg h, show (key r == a) = false from beq_false_of_ne h]
      exact ih

theorem gridOf_getD (R : List (List String)) (j : Nat) (hj : j < maxW R) :
    (gridOf R).getD j [] = colOf R j := by
  rw [gridOf, getD_map_range, if_pos hj]

theorem secondInner_content (R : List (List String)) (j : Nat)
    (attrs : List (String × String)) (a : String)
    (hnd : (R.map (fun r => r.headD "")).Nodup) (hj : j < maxW R) :
    dget ((List.range ((gridOf R).getD j []).length).foldl
        (fun d i => dinsert d (cellAt (gridOf R) 0 i) (cellAt (gridOf R) j i))
        attrs) a =
      ((R.find? (fun r => r.headD "" == a)).map (fun r => r.getD j "")).or
        (dget attrs a) := by
  rw [gridOf_getD R j hj, colOf, List.length_map]
  simp only [cellAt_gridOf]
  rw [foldl_range_getD R [] (fun d r => dinsert d (r.getD 0 "") (r.getD j ""))]
  have hfm : R.foldl (fun d r => dinsert d (r.getD 0 "") (r.getD j "")) attrs
      = (R.map (fun r => (r.getD 0 "", r.getD j ""))).foldl
          (fun d p => dinsert d p.1 p.2) attrs := by
    rw [List.foldl_map]
  rw [hfm, dget_foldl_dinsert]
  · rw [dget_map_pair]
    have : (fun (r : List String) => r.getD 0 "" == a) =
        (fun r => r.headD "" == a) := by
      funext r
      rw [headD_eq_getD_zero]
    rw [this]
  · rw [List.map_map]
    have : (Prod.fst ∘ fun (r : List String) => (r.getD 0 "", r.getD j ""))
        = fun r => r.headD "" := by
      funext r
      rw [Function.comp, headD_eq_getD_zero]
    rw [this]
    exact hnd

theorem idsRel_dget_isSome {ids ids'} (h : IdsRel ids ids') (id : String) :
    (dget ids id).isSome = (dget ids' id).isSome := by
  induction h with
  | nil => rfl
  | cons hpq hrest ih =>
    rename_i p q l1 l2
    rw [dget_cons, dget_cons, hpq.1]
    by_cases hk : q.1 = id
    · rw [if_pos hk, if_pos hk]
      rfl
    · rw [if_neg hk, if_neg hk]
      exact ih

theorem idsRel_dget_content {ids ids'} (h : IdsRel ids ids') (id a : String) :
    dget ((dget ids id).getD []) a = dget ((dget ids' id).getD []) a := by
  induction h with
  | nil => rfl
  | cons hpq hrest ih =>
    rename_i p q l1 l2
    rw [dget_cons, dget_cons, hpq.1]
    by_cases hk : q.1 = id
    · rw [if_pos hk, if_pos hk]
      simpa using hpq.2 a
    · rw [if_neg hk, if_neg hk]
      exact ih

theorem idsRel_dinsert {ids ids'} (h : IdsRel ids ids') (k : String)
    {d d' : List (String × String)} (hd : ∀ a, dget d a = dget d' a) :
    IdsRel (dinsert ids k d) (dinsert ids' k d') := by
  induction h with
  | nil => exact List.Forall₂.cons ⟨rfl, hd⟩ List.Forall₂.nil
  | cons hpq hrest ih =>
    rename_i p q l1 l2
    rw [dinsert, dinsert]
    by_cases hk : p.1 = k
    · rw [show (p.1 == k) = true from beq_iff_eq.mpr hk,
        show (q.1 == k) = true from beq_iff_eq.mpr (hpq.1 ▸ hk)]
      exact List.Forall₂.cons ⟨hpq.1, hd⟩ hrest
    · rw [show (p.1 == k) = false from beq_false_of_ne hk,
        show (q.1 == k) = false from beq_false_of_ne (hpq.1 ▸ hk)]
      exact List.Forall₂.cons hpq ih

theorem attrCell_perm {R R' : List (List String)} (hperm : R.Perm R')
    (hnd : (R.map (fun r => r.headD "")).Nodup) (a : String) (j : Nat) :
    attrCell R a j = attrCell R' a j := by
  rw [attrCell, attrCell,
    find?_perm_nodup (fun r => r.headD "") a hperm hnd]

theorem colsSecondStep_rel {R R' : List (List String)} (hperm : R.Perm R')
    (hnd : (R.map (fun r => r.headD "")).Nodup) (j : Nat)
    (hj : j < maxW R) {ids ids'} (hrel : IdsRel ids ids') :
    IdsRel
      (colsSecondStep (gridOf R) (pyIndex (colOf R 0) "identifier") ids j)
      (colsSecondStep (gridOf R') (pyIndex (colOf R' 0) "identifier") ids' j)
    := by
  have hnd' : (R'.map (fun r => r.headD "")).Nodup :=
    ((hperm.map (fun r => r.headD "")).nodup_iff).mp hnd
  have hj' : j < maxW R' := (maxW_perm hperm) ▸ hj
  rw [colsSecondStep, colsSecondStep, cellAt_pyIndex, cellAt_pyIndex,
    attrCell_perm hperm hnd "identifier" j]
  by_cases hid : attrCell R' "identifier" j ≠ ""
  · rw [if_pos hid, if_pos hid]
    apply idsRel_dinsert hrel
    intro a
    rw [secondInner_content R j _ a hnd hj,
      secondInner_content R' j _ a hnd' hj']
    rw [find?_perm_nodup (fun r => r.headD "") _ hperm hnd]
    rw [idsRel_dget_content hrel _ a]
  · rw [if_neg hid, if_neg hid]
    exact hrel

theorem colsSecondLoop_fold_rel {R R' : List (List String)}
    (hperm : R.Perm R')
    (hnd : (R.map (fun r => r.headD "")).Nodup) (js : List Nat)
    (hjs : ∀ j ∈ js, j < maxW R) :
    ∀ {ids ids'}, IdsRel ids ids' →
    IdsRel
      (js.foldl (colsSecondStep (gridOf R) (pyIndex (colOf R 0) "identifier"))
        ids)
      (js.foldl (colsSecondStep (gridOf R') (pyIndex (colOf R' 0) "identifier"))
        ids') := by
  induction js with
  | nil => intro ids ids' h; exact h
  | cons j rest ih =>
    intro ids ids' h
    rw [List.foldl_cons, List.foldl_cons]
    exact ih (fun x hx => hjs x (List.mem_cons_of_mem j hx))
      (colsSecondStep_rel hperm hnd j (hjs j (List.mem_cons_self j rest)) h)

theorem foldlM_lockstep {σ α : Type} (f g : σ → α → Except Err σ)
    (l : List α)
    (h : ∀ s x, x ∈ l → (isOk (f s x) = isOk (g s x)) ∧
      (∀ out, f s x = Except.ok out → g s x = Except.ok out)) :
    ∀ s, (isOk (l.foldlM f s) = isOk (l.foldlM g s)) ∧
      (∀ out, l.foldlM f s = Except.ok out →
        l.foldlM g s = Except.ok out) := by
  induction l with
  | nil => intro s; exact ⟨rfl, fun out ho => ho⟩
  | cons x rest ih =>
    intro s
    rw [List.foldlM_cons, List.foldlM_cons]
    obtain ⟨hok, hprop⟩ := h s x (List.mem_cons_self x rest)
    cases hf : f s x with
    | error e =>
      cases hg : g s x with
      | error e' =>
        rw [except_bind_error, except_bind_error]
        exact ⟨rfl, fun out ho => absurd ho (by simp)⟩
      | ok out' =>
        rw [hf, hg] at hok
        exact absurd hok (by simp [isOk])
    | ok out =>
      have hg := hprop out hf
      rw [hg, except_bind_ok, except_bind_ok]
      exact ih (fun s' x' hx' => h s' x' (List.mem_cons_of_mem x hx')) out

theorem colsFirstStep_rel {R R' : List (List String)} (hperm : R.Perm R')
    (hnd : (R.map (fun r => r.headD "")).Nodup)
    (nl nl' : List (String × Nat)) (j : Nat)
    (s : List (String × String) × List (String × List (String × String))) :
    (isOk (colsFirstStep nl (gridOf R) (pyIndex (colOf R 0) "csv_header")
        (pyIndex (colOf R 0) "identifier") s j) =
      isOk (colsFirstStep nl' (gridOf R') (pyIndex (colOf R' 0) "csv_header")
        (pyIndex (colOf R' 0) "identifier") s j)) ∧
    (∀ out, colsFirstStep nl (gridOf R) (pyIndex (colOf R 0) "csv_header")
        (pyIndex (colOf R 0) "identifier") s j = Except.ok out →
      colsFirstStep nl' (gridOf R') (pyIndex (colOf R' 0) "csv_header")
        (pyIndex (colOf R' 0) "identifier") s j = Except.ok out) := by
  rw [colsFirstStep, colsFirstStep, cellAt_pyIndex, cellAt_pyIndex,
    cellAt_pyIndex, cellAt_pyIndex, attrCell_perm hperm hnd "csv_header" j,
    attrCell_perm hperm hnd "identifier" j]
  by_cases hid : attrCell R' "identifier" j ≠ ""
  · rw [if_pos hid, if_pos hid]
    by_cases hpat : ¬ idpatMatch (attrCell R' "identifier" j)
    · rw [if_pos hpat, if_pos hpat]
      exact ⟨rfl, fun out ho => absurd ho (by simp)⟩
    · rw [if_neg hpat, if_neg hpat]
      exact ⟨rfl, fun out ho => ho⟩
  · rw [if_neg hid, if_neg hid]
    exact ⟨rfl, fun out ho => ho⟩

theorem datatypeStep_congr (p q : String × List (String × String))
    (h1 : p.1 = q.1) (h2 : ∀ a, dget p.2 a = dget q.2 a) (u : Unit) :
    datatypeStep u p = datatypeStep u q := by
  rw [datatypeStep, datatypeStep, h1, h2 "datatype"]

theorem datatypeCheck_rel {ids ids'} (h : IdsRel ids ids') :
    datatypeCheck ids = datatypeCheck ids' := by
  rw [datatypeCheck, datatypeCheck]
  induction h with
  | nil => rfl
  | cons hpq hrest ih =>
    rename_i p q l1 l2
    rw [List.foldlM_cons, List.foldlM_cons,
      datatypeStep_congr p q hpq.1 hpq.2 ()]
    cases datatypeStep () q with
    | error e => rw [except_bind_error, except_bind_error]
    | ok u => rw [except_bind_ok, except_bind_ok]; exact ih

theorem gridOf_headD (R : List (List String)) (h : 0 < maxW R) :
    (gridOf R).headD [] = colOf R 0 := by
  have := gridOf_getD R 0 h
  rw [← this, List.getD_eq_getElem?_getD]
  cases hg : gridOf R with
  | nil =>
    have := gridOf_length R
    rw [hg] at this
    simp at this
    omega
  | cons c rest => simp

theorem IdsRel_refl (ids : List (String × List (String × String))) :
    IdsRel ids ids := by
  rw [IdsRel, List.forall₂_same]
  exact fun x _ => ⟨rfl, fun a => rfl⟩

theorem maxW_pos_of_any_head (R : List (List String)) (a : String)
    (ha : a ≠ "") (h : R.any (fun r => a == r.headD "") = true) :
    0 < maxW R := by
  rw [List.any_eq_true] at h
  obtain ⟨r, hr, heq⟩ := h
  have : a = r.headD "" := beq_iff_eq.mp heq
  have hrne : r ≠ [] := by
    intro hnil
    rw [hnil] at this
    exact ha (by simpa using this)
  have hlen : 1 ≤ r.length := by
    cases r with
    | nil => exact absurd rfl hrne
    | cons x xs => simp
  exact lt_of_lt_of_le (by omega) (length_le_maxW R r hr)

theorem readCols_perm (n n' : Nat) (cs cs' : List (List String))
    (hperm : cs.Perm cs')
    (hnd : ((nbRows cs).map (fun r => r.headD "")).Nodup) :
    (isOk (KeyFile.readCols n cs) = isOk (KeyFile.readCols n' cs')) ∧
    (∀ hi hi', KeyFile.readCols n cs = Except.ok hi →
      KeyFile.readCols n' cs' = Except.ok hi' →
      hi.1 = hi'.1 ∧ IdsRel hi.2 hi'.2) := by
  have hRperm : (nbRows cs).Perm (nbRows cs') := by
    rw [nbRows, nbRows]
    exact (hperm.map (fun row => row.map pyStrip)).filter
      (fun r => ¬ r.all (· = ""))
  obtain ⟨hg1, hnl1⟩ := colLoop_spec n cs
  obtain ⟨hg2, hnl2⟩ := colLoop_spec n' cs'
  have hany : ∀ a, dmem (colLoop n cs).name_line a =
      dmem (colLoop n' cs').name_line a := by
    intro a
    rw [hnl1 a, hnl2 a, any_perm _ hRperm]
  rw [KeyFile.readCols, KeyFile.readCols]
  rw [hany "csv_header", hany "identifier", hany "datatype"]
  by_cases hp1 : ¬ dmem (colLoop n' cs').name_line "csv_header" = true
  · rw [if_pos hp1, if_pos hp1]
    exact ⟨rfl, fun hi hi' ho _ => absurd ho (by simp)⟩
  · rw [if_neg hp1, if_neg hp1]
    by_cases hp2 : ¬ dmem (colLoop n' cs').name_line "identifier" = true
    · rw [if_pos hp2, if_pos hp2]
      exact ⟨rfl, fun hi hi' ho _ => absurd ho (by simp)⟩
    · rw [if_neg hp2, if_neg hp2]
      by_cases hp3 : ¬ dmem (colLoop n' cs').name_line "datatype" = true
      · rw [if_pos hp3, if_pos hp3]
        exact ⟨rfl, fun hi hi' ho _ => absurd ho (by simp)⟩
      · rw [if_neg hp3, if_neg hp3]
        -- widths agree, the grids are the two gridOf values
        have hmw : maxW (nbRows cs) = maxW (nbRows cs') := maxW_perm hRperm
        have hpos : 0 < maxW (nbRows cs) := by
          apply maxW_pos_of_any_head _ "csv_header" (by decide)
          have := hnl1 "csv_header"
          rw [not_not] at hp1
          rw [hany "csv_header"] at this
          rw [← this, hp1]
        have hhead1 : (colLoop n cs).colgrid.headD [] = colOf (nbRows cs) 0 := by
          rw [hg1, gridOf_headD _ hpos]
        have hhead2 : (colLoop n' cs').colgrid.headD [] =
            colOf (nbRows cs') 0 := by
          rw [hg2, gridOf_headD _ (hmw ▸ hpos)]
        have hlen1 : (colLoop n cs).colgrid.length = maxW (nbRows cs) := by
          rw [hg1, gridOf_length]
        have hlen2 : (colLoop n' cs').colgrid.length = maxW (nbRows cs) := by
          rw [hg2, gridOf_length, hmw]
        simp only [colsFirstLoop]
        rw [hhead1, hhead2, hlen1, hlen2, hg1, hg2]
        obtain ⟨hfok, hfprop⟩ := foldlM_lockstep
          (colsFirstStep (colLoop n cs).name_line (gridOf (nbRows cs))
            (pyIndex (colOf (nbRows cs) 0) "csv_header")
            (pyIndex (colOf (nbRows cs) 0) "identifier"))
          (colsFirstStep (colLoop n' cs').name_line (gridOf (nbRows cs'))
            (pyIndex (colOf (nbRows cs') 0) "csv_header")
            (pyIndex (colOf (nbRows cs') 0) "identifier"))
          (List.range' 1 (maxW (nbRows cs) - 1))
          (fun s x _ => colsFirstStep_rel hRperm hnd _ _ x s)
          ([], [])
        cases hf1 : List.foldlM
            (colsFirstStep (colLoop n cs).name_line (gridOf (nbRows cs))
              (pyIndex (colOf (nbRows cs) 0) "csv_header")
              (pyIndex (colOf (nbRows cs) 0) "identifier"))
            ([], []) (List.range' 1 (maxW (nbRows cs) - 1)) with
        | error e =>
          rw [hf1] at hfok
          cases hf2 : List.foldlM
              (colsFirstStep (colLoop n' cs').name_line (gridOf (nbRows cs'))
                (pyIndex (colOf (nbRows cs') 0) "csv_header")
                (pyIndex (colOf (nbRows cs') 0) "identifier"))
              ([], []) (List.range' 1 (maxW (nbRows cs) - 1)) with
          | error e' =>
            rw [except_bind_error, except_bind_error]
            exact ⟨rfl, fun hi hi' ho _ => absurd ho (by simp)⟩
          | ok out =>
            rw [hf2] at hfok
            exact absurd hfok (by simp [isOk])
        | ok out =>
          have hf2 := hfprop out hf1
          rw [hf2, except_bind_ok, except_bind_ok]
          have hrel2 : IdsRel
              (colsSecondLoop (gridOf (nbRows cs))
                (pyIndex (colOf (nbRows cs) 0) "identifier") out.2)
              (colsSecondLoop (gridOf (nbRows cs'))
                (pyIndex (colOf (nbRows cs') 0) "identifier") out.2) := by
            rw [colsSecondLoop, colsSecondLoop, gridOf_length, gridOf_length,
              ← hmw]
            apply colsSecondLoop_fold_rel hRperm hnd
            · intro j hj
              rw [List.mem_range'_1] at hj
              omega
            · exact IdsRel_refl out.2
          rw [datatypeCheck_rel hrel2]
          cases hdc : datatypeCheck
              (colsSecondLoop (gridOf (nbRows cs'))
                (pyIndex (colOf (nbRows cs') 0) "identifier") out.2) with
          | error e =>
            rw [except_bind_error, except_bind_error]
            exact ⟨rfl, fun hi hi' ho _ => absurd ho (by simp)⟩
          | ok u =>
            rw [except_bind_ok, except_bind_ok]
            refine ⟨rfl, fun hi hi' ho ho' => ?_⟩
            cases ho
            cases ho'
            exact ⟨rfl, hrel2⟩

/-! ## The global section as a function of its row set -/

theorem gRow_cases (caps : Caps) (row0 : List String)
    (gsrest : List (List String)) (n : Nat) (acc : List (String × GVal))
    (hb : (row0.map pyStrip).headD "" ≠ "") :
    (gRowOk caps row0 = true ∧ readGlobalsLoop caps (row0 :: gsrest) n acc =
        readGlobalsLoop caps gsrest (n + 1) (gStep caps acc row0)) ∨
    (gRowOk caps row0 = false ∧
      ∃ e, readGlobalsLoop caps (row0 :: gsrest) n acc = Except.error e) := by
  have hbreak : ¬ ((row0.map pyStrip).length < 1 ∨
      (row0.map pyStrip).headD "" = "") := by
    rintro (h1 | h2)
    · have hnil : row0.map pyStrip = [] := List.length_eq_zero.mp (by omega)
      rw [hnil] at hb
      exact hb rfl
    · exact hb h2
  by_cases hk : expectedGlobalKeys.contains ((row0.map pyStrip).headD "")
      = true
  · by_cases hblank : ((row0.map pyStrip).length < 2 ∨
        (row0.map pyStrip).getD 1 "" = "")
    · apply Or.inl
      constructor
      · rw [gRowOk]
        simp only [hk, not_true, if_false, hblank, if_true]
      · rw [readGlobalsLoop, gStep]
        simp only [hbreak, hk, not_true, if_false, hblank, if_true]
    · by_cases hkey1 : (row0.map pyStrip).headD "" = "epsg_code"
      · cases hp : parseIntLit ((row0.map pyStrip).getD 1 "") with
        | none =>
          apply Or.inr
          constructor
          · rw [gRowOk]
            simp only [hkey1, hkey1 ▸ hk, not_true, if_false, hblank,
              if_true, hp]
          · rw [readGlobalsLoop]
            simp only [hkey1, hkey1 ▸ hbreak, hkey1 ▸ hk, not_true,
              if_false, hblank, if_true, hp]
            exact ⟨_, rfl⟩
        | some m =>
          by_cases hres : caps.resolveEPSG m = true
          · apply Or.inl
            constructor
            · rw [gRowOk]
              simp only [hkey1, hkey1 ▸ hk, not_true, if_false, hblank,
                if_true, hp]
              exact hres
            · rw [readGlobalsLoop, gStep]
              simp only [hkey1, hkey1 ▸ hbreak, hkey1 ▸ hk, not_true,
                if_false, hblank, if_true, hp, hres, Option.getD_some]
          · apply Or.inr
            constructor
            · rw [gRowOk]
              simp only [hkey1, hkey1 ▸ hk, not_true, if_false, hblank,
                if_true, hp]
              rw [Bool.not_eq_true] at hres
              exact hres
            · rw [readGlobalsLoop]
              simp only [hkey1, hkey1 ▸ hbreak, hkey1 ▸ hk, not_true,
                if_false, hblank, if_true, hp, hres]
              exact ⟨_, rfl⟩
      · by_cases hkey2 : (row0.map pyStrip).headD "" = "maxskippct"
        · cases hp : parseRealLit ((row0.map pyStrip).getD 1 "") with
          | none =>
            apply Or.inr
            constructor
            · rw [gRowOk]
              simp only [hkey2, hkey2 ▸ hk, hkey2 ▸ hkey1, not_true,
                if_false, hblank, if_true, hp]
            · rw [readGlobalsLoop]
              simp only [hkey2, hkey2 ▸ hbreak, hkey2 ▸ hk, hkey2 ▸ hkey1,
                not_true, if_false, hblank, if_true, hp]
              exact ⟨_, rfl⟩
          | some q =>
            by_cases hq : (q < mkRat 0 1 ∨ mkRat 99 1 < q)
            · apply Or.inr
              constructor
              · rw [gRowOk]
                simp only [hkey2, hkey2 ▸ hk, hkey2 ▸ hkey1, not_true,
                  if_false, hblank, if_true, hp]
                exact decide_eq_false (not_not_intro hq)
              · rw [readGlobalsLoop]
                simp only [hkey2, hkey2 ▸ hbreak, hkey2 ▸ hk, hkey2 ▸ hkey1,
                  not_true, if_false, hblank, if_true, hp, hq]
                exact ⟨_, rfl⟩
            · apply Or.inl
              constructor
              · rw [gRowOk]
                simp only [hkey2, hkey2 ▸ hk, hkey2 ▸ hkey1, not_true,
                  if_false, hblank, if_true, hp]
                exact decide_eq_true hq
              · rw [readGlobalsLoop, gStep]
                simp only [hkey2, hkey2 ▸ hbreak, hkey2 ▸ hk, hkey2 ▸ hkey1,
                  not_true, if_false, hblank, if_true, hp, hq,
                  Option.getD_some]
        · by_cases hkey3 : (row0.map pyStrip).headD "" = "dllre"
          · cases hp : caps.compileRE ((row0.map pyStrip).getD 1 "") with
            | none =>
              apply Or.inr
              constructor
              · rw [gRowOk]
                simp only [hkey3, hkey3 ▸ hk, hkey3 ▸ hkey1, hkey3 ▸ hkey2,
                  not_true, if_false, hblank, if_true, hp]
              · rw [readGlobalsLoop]
                simp only [hkey3, hkey3 ▸ hbreak, hkey3 ▸ hk, hkey3 ▸ hkey1,
                  hkey3 ▸ hkey2, not_true, if_false, hblank, if_true, hp]
                exact ⟨_, rfl⟩
            | some r =>
              by_cases hg1 : r.groupindex.contains "dlat" = true
              · by_cases hg2 : r.groupindex.contains "dlon" = true
                · apply Or.inl
                  constructor
                  · rw [gRowOk]
                    simp only [hkey3, hkey3 ▸ hk, hkey3 ▸ hkey1,
                      hkey3 ▸ hkey2, not_true, if_false, hblank, if_true, hp]
                    exact decide_eq_true ⟨hg1, hg2⟩
                  · rw [readGlobalsLoop, gStep]
                    simp only [hkey3, hkey3 ▸ hbreak, hkey3 ▸ hk,
                      hkey3 ▸ hkey1, hkey3 ▸ hkey2, not_true, if_false,
                      hblank, if_true, hp, hg1, hg2, Option.getD_some]
                · apply Or.inr
                  constructor
                  · rw [gRowOk]
                    simp only [hkey3, hkey3 ▸ hk, hkey3 ▸ hkey1,
                      hkey3 ▸ hkey2, not_true, if_false, hblank, if_true, hp]
                    exact decide_eq_false (fun hc => hg2 hc.2)
                  · rw [readGlobalsLoop]
                    simp only [hkey3, hkey3 ▸ hbreak, hkey3 ▸ hk,
                      hkey3 ▸ hkey1, hkey3 ▸ hkey2, not_true, if_false,
                      hblank, if_true, hp, hg1, hg2]
                    exact ⟨_, rfl⟩
              · apply Or.inr
                constructor
                · rw [gRowOk]
                  simp only [hkey3, hkey3 ▸ hk, hkey3 ▸ hkey1, hkey3 ▸ hkey2,
                    not_true, if_false, hblank, if_true, hp]
                  exact decide_eq_false (fun hc => hg1 hc.1)
                · rw [readGlobalsLoop]
                  simp only [hkey3, hkey3 ▸ hbreak, hkey3 ▸ hk,
                    hkey3 ▸ hkey1, hkey3 ▸ hkey2, not_true, if_false,
                    hblank, if_true, hp, hg1]
                  exact ⟨_, rfl⟩
          · by_cases hkey4 : (row0.map pyStrip).headD "" = "encoding"
            · by_cases henc : caps.knownEncoding
                  ((row0.map pyStrip).getD 1 "") = true
              · apply Or.inl
                constructor
                · rw [gRowOk]
                  simp only [hkey4, hkey4 ▸ hk, hkey4 ▸ hkey1, hkey4 ▸ hkey2,
                    hkey4 ▸ hkey3, not_true, if_false, hblank, if_true, henc]
                · rw [readGlobalsLoop, gStep]
                  simp only [hkey4, hkey4 ▸ hbreak, hkey4 ▸ hk,
                    hkey4 ▸ hkey1, hkey4 ▸ hkey2, hkey4 ▸ hkey3, not_true,
                    if_false, hblank, if_true, henc]
              · apply Or.inr
                constructor
                · rw [gRowOk]
                  simp only [hkey4, hkey4 ▸ hk, hkey4 ▸ hkey1, hkey4 ▸ hkey2,
                    hkey4 ▸ hkey3, not_true, if_false, hblank, if_true]
                  rw [Bool.not_eq_true] at henc
                  exact henc
                · rw [readGlobalsLoop]
                  simp only [hkey4, hkey4 ▸ hbreak, hkey4 ▸ hk,
                    hkey4 ▸ hkey1, hkey4 ▸ hkey2, hkey4 ▸ hkey3, not_true,
                    if_false, hblank, if_true, henc]
                  exact ⟨_, rfl⟩
            · apply Or.inl
              constructor
              · rw [gRowOk]
                simp only [hk, not_true, if_false, hblank, if_true, hkey1,
                  hkey2, hkey3, hkey4]
              · rw [readGlobalsLoop, gStep]
                simp only [hbreak, hk, not_true, if_false, hblank, if_true,
                  hkey1, hkey2, hkey3, hkey4]
  · apply Or.inr
    constructor
    · rw [gRowOk]
      simp only [hk, Bool.false_eq_true, not_false_eq_true, not_false_iff,
        if_true]
    · rw [readGlobalsLoop]
      simp only [hbreak, hk, Bool.false_eq_true, not_false_eq_true,
        not_false_iff, if_true, if_false]
      exact ⟨_, rfl⟩

theorem readGlobalsLoop_split (caps : Caps) (gs : List (List String))
    (rest : List (List String)) (n : Nat) (acc : List (String × GVal))
    (hb : ∀ g ∈ gs, (g.map pyStrip).headD "" ≠ "") :
    (gs.all (gRowOk caps) = true ∧
      readGlobalsLoop caps (gs ++ [""] :: rest) n acc =
        Except.ok (gs.foldl (gStep caps) acc, rest, n + gs.length + 1)) ∨
    (gs.all (gRowOk caps) = false ∧
      ∃ e, readGlobalsLoop caps (gs ++ [""] :: rest) n acc =
        Except.error e) := by
  induction gs generalizing n acc with
  | nil =>
    apply Or.inl
    exact ⟨rfl, rfl⟩
  | cons g gs ih =>
    have hbg : (g.map pyStrip).headD "" ≠ "" := hb g (List.mem_cons_self g gs)
    have hbtail : ∀ g' ∈ gs, (g'.map pyStrip).headD "" ≠ "" :=
      fun g' h => hb g' (List.mem_cons_of_mem g h)
    rcases gRow_cases caps g (gs ++ [""] :: rest) n acc hbg with
      ⟨hok, heq⟩ | ⟨hbad, e, herr⟩
    · rcases ih (n + 1) (gStep caps acc g) hbtail with
        ⟨hall, heq2⟩ | ⟨hall, e, herr2⟩
      · apply Or.inl
        constructor
        · simp [List.all_cons, hok, hall]
        · rw [List.cons_append, heq, heq2]
          simp only [List.foldl_cons, List.length_cons]
          have harith : n + 1 + gs.length + 1 = n + (gs.length + 1) + 1 := by
            omega
          rw [harith]
      · apply Or.inr
        constructor
        · simp [List.all_cons, hall]
        · rw [List.cons_append, heq]
          exact ⟨e, herr2⟩
    · apply Or.inr
      constructor
      · simp [List.all_cons, hbad]
      · rw [List.cons_append]
        exact ⟨e, herr⟩

theorem gStep_eq_gEntry (caps : Caps) (acc : List (String × GVal))
    (row0 : List String) :
    gStep caps acc row0 = (match gEntry caps row0 with
      | Option.none => acc
      | Option.some p => dinsert acc p.1 p.2) := by
  rw [gStep, gEntry]
  by_cases h : ((row0.map pyStrip).length < 2 ∨
      (row0.map pyStrip).getD 1 "" = "")
  · rw [if_pos h, if_pos h]
  · rw [if_neg h, if_neg h]
    by_cases h1 : (row0.map pyStrip).headD "" = "epsg_code"
    · rw [if_pos h1, if_pos h1]
    · rw [if_neg h1, if_neg h1]
      by_cases h2 : (row0.map pyStrip).headD "" = "maxskippct"
      · rw [if_pos h2, if_pos h2]
      · rw [if_neg h2, if_neg h2]
        by_cases h3 : (row0.map pyStrip).headD "" = "dllre"
        · rw [if_pos h3, if_pos h3]
        · rw [if_neg h3, if_neg h3]

theorem gEntry_fst (caps : Caps) (row0 : List String)
    (p : String × GVal) (h : gEntry caps row0 = Option.some p) :
    p.1 = (row0.map pyStrip).headD "" := by
  rw [gEntry] at h
  by_cases hc : ((row0.map pyStrip).length < 2 ∨
      (row0.map pyStrip).getD 1 "" = "")
  · rw [if_pos hc] at h
    exact absurd h (by simp)
  · rw [if_neg hc] at h
    by_cases h1 : (row0.map pyStrip).headD "" = "epsg_code"
    · rw [if_pos h1] at h
      cases h
      rfl
    · rw [if_neg h1] at h
      by_cases h2 : (row0.map pyStrip).headD "" = "maxskippct"
      · rw [if_pos h2] at h
        cases h
        rfl
      · rw [if_neg h2] at h
        by_cases h3 : (row0.map pyStrip).headD "" = "dllre"
        · rw [if_pos h3] at h
          cases h
          rfl
        · rw [if_neg h3] at h
          cases h
          rfl

theorem foldl_gStep_filterMap (caps : Caps) (gs : List (List String)) :
    ∀ acc, gs.foldl (gStep caps) acc =
      (gs.filterMap (gEntry caps)).foldl
        (fun d p => dinsert d p.1 p.2) acc := by
  induction gs with
  | nil => intro acc; rfl
  | cons g gs ih =>
    intro acc
    rw [List.foldl_cons, List.filterMap_cons, gStep_eq_gEntry]
    cases hge : gEntry caps g with
    | none => exact ih acc
    | some p =>
      rw [List.foldl_cons]
      exact ih (dinsert acc p.1 p.2)

theorem dget_perm_nodup {α : Type} {d d' : List (String × α)}
    (hperm : d.Perm d') (hnd : (d.map Prod.fst).Nodup) (a : String) :
    dget d a = dget d' a := by
  rw [dget, dget, find?_perm_nodup Prod.fst a hperm hnd]

theorem gEntry_keys_sublist (caps : Caps) (gs : List (List String)) :
    ((gs.filterMap (gEntry caps)).map Prod.fst).Sublist
      (gs.map (fun g => (g.map pyStrip).headD "")) := by
  induction gs with
  | nil => simp
  | cons g gs ih =>
    rw [List.filterMap_cons]
    cases hge : gEntry caps g with
    | none =>
      rw [List.map_cons]
      exact ih.cons _
    | some p =>
      rw [List.map_cons, List.map_cons, gEntry_fst caps g p hge]
      exact ih.cons₂ _

theorem dget_foldl_gStep_perm (caps : Caps) {gs gs' : List (List String)}
    (hperm : gs.Perm gs')
    (hnd : (gs.map (fun g => (g.map pyStrip).headD "")).Nodup) :
    ∀ k, dget (gs.foldl (gStep caps) []) k =
      dget (gs'.foldl (gStep caps) []) k := by
  intro k
  rw [foldl_gStep_filterMap, foldl_gStep_filterMap]
  have hpf : (gs.filterMap (gEntry caps)).Perm
      (gs'.filterMap (gEntry caps)) := hperm.filterMap _
  have hndf : ((gs.filterMap (gEntry caps)).map Prod.fst).Nodup :=
    hnd.sublist (gEntry_keys_sublist caps gs)
  rw [dget_foldl_dinsert _ _ _ hndf,
    dget_foldl_dinsert _ _ _ (by
      rw [List.Perm.nodup_iff (hpf.map Prod.fst).symm]
      exact hndf)]
  rw [dget_perm_nodup hpf hndf k]

theorem dget_default_congr (d1 d2 : List (String × GVal)) (a : String)
    (v : GVal) (hdg : ∀ k, dget d1 k = dget d2 k) :
    ∀ k, dget (if dmem d1 a then d1 else dinsert d1 a v) k =
      dget (if dmem d2 a then d2 else dinsert d2 a v) k := by
  intro k
  have hdm : dmem d1 a = dmem d2 a := congrArg Option.isSome (hdg a)
  rw [hdm]
  by_cases h : dmem d2 a = true
  · rw [if_pos h, if_pos h]
    exact hdg k
  · rw [if_neg h, if_neg h, dget_dinsert, dget_dinsert]
    by_cases hk : k = a
    · rw [if_pos hk, if_pos hk]
    · rw [if_neg hk, if_neg hk]
      exact hdg k

theorem gFinal_congr (d1 d2 : List (String × GVal))
    (r r' : List (List String)) (n : Nat)
    (hdg : ∀ k, dget d1 k = dget d2 k) :
    (isOk (if ¬ dmem d1 "epsg_code" then
        Except.error (Err.valueError "Required epsg_code is missing")
      else if dmem d1 "dlatcol" ∧ ¬ dmem d1 "dloncol" then
        Except.error (Err.valueError
          "If dlatcol is present, dloncol is required")
      else if dmem d1 "dloncol" ∧ ¬ dmem d1 "dlatcol" then
        Except.error (Err.valueError
          "If dloncol is present, dlatcol is required")
      else if dmem d1 "dllcol" ∧ ¬ dmem d1 "dllre" then
        Except.error (Err.valueError
          "If dllcol is present, dllre is required")
      else if dmem d1 "dllcol" ∧ dmem d1 "dlatcol" then
        Except.error (Err.valueError
          "Only one of (dlatcol,dloncol) or (dllcol,dllre) may be specified")
      else Except.ok (d1, r, n)) =
     isOk (if ¬ dmem d2 "epsg_code" then
        Except.error (Err.valueError "Required epsg_code is missing")
      else if dmem d2 "dlatcol" ∧ ¬ dmem d2 "dloncol" then
        Except.error (Err.valueError
          "If dlatcol is present, dloncol is required")
      else if dmem d2 "dloncol" ∧ ¬ dmem d2 "dlatcol" then
        Except.error (Err.valueError
          "If dloncol is present, dlatcol is required")
      else if dmem d2 "dllcol" ∧ ¬ dmem d2 "dllre" then
        Except.error (Err.valueError
          "If dllcol is present, dllre is required")
      else if dmem d2 "dllcol" ∧ dmem d2 "dlatcol" then
        Except.error (Err.valueError
          "Only one of (dlatcol,dloncol) or (dllcol,dllre) may be specified")
      else Except.ok (d2, r', n))) ∧
    (∀ o o',
      (if ¬ dmem d1 "epsg_code" then
        Except.error (Err.valueError "Required epsg_code is missing")
      else if dmem d1 "dlatcol" ∧ ¬ dmem d1 "dloncol" then
        Except.error (Err.valueError
          "If dlatcol is present, dloncol is required")
      else if dmem d1 "dloncol" ∧ ¬ dmem d1 "dlatcol" then
        Except.error (Err.valueError
          "If dloncol is present, dlatcol is required")
      else if dmem d1 "dllcol" ∧ ¬ dmem d1 "dllre" then
        Except.error (Err.valueError
          "If dllcol is present, dllre is required")
      else if dmem d1 "dllcol" ∧ dmem d1 "dlatcol" then
        Except.error (Err.valueError
          "Only one of (dlatcol,dloncol) or (dllcol,dllre) may be specified")
      else Except.ok (d1, r, n)) = Except.ok o →
      (if ¬ dmem d2 "epsg_code" then
        Except.error (Err.valueError "Required epsg_code is missing")
      else if dmem d2 "dlatcol" ∧ ¬ dmem d2 "dloncol" then
        Except.error (Err.valueError
          "If dlatcol is present, dloncol is required")
      else if dmem d2 "dloncol" ∧ ¬ dmem d2 "dlatcol" then
        Except.error (Err.valueError
          "If dloncol is present, dlatcol is required")
      else if dmem d2 "dllcol" ∧ ¬ dmem d2 "dllre" then
        Except.error (Err.valueError
          "If dllcol is present, dllre is required")
      else if dmem d2 "dllcol" ∧ dmem d2 "dlatcol" then
        Except.error (Err.valueError
          "Only one of (dlatcol,dloncol) or (dllcol,dllre) may be specified")
      else Except.ok (d2, r', n)) = Except.ok o' →
      (∀ k, dget o.1 k = dget o'.1 k) ∧ o.2.1 = r ∧ o'.2.1 = r' ∧
        o.2.2 = o'.2.2) := by
  have hdm : ∀ a, dmem d1 a = dmem d2 a :=
    fun a => congrArg Option.isSome (hdg a)
  rw [hdm "epsg_code", hdm "dlatcol", hdm "dloncol", hdm "dllcol",
    hdm "dllre"]
  by_cases h1 : ¬ dmem d2 "epsg_code" = true
  · rw [if_pos h1, if_pos h1]
    exact ⟨rfl, fun o o' ho => absurd ho (by simp)⟩
  · rw [if_neg h1, if_neg h1]
    by_cases h2 : dmem d2 "dlatcol" = true ∧ ¬ dmem d2 "dloncol" = true
    · rw [if_pos h2, if_pos h2]
      exact ⟨rfl, fun o o' ho => absurd ho (by simp)⟩
    · rw [if_neg h2, if_neg h2]
      by_cases h3 : dmem d2 "dloncol" = true ∧ ¬ dmem d2 "dlatcol" = true
      · rw [if_pos h3, if_pos h3]
        exact ⟨rfl, fun o o' ho => absurd ho (by simp)⟩
      · rw [if_neg h3, if_neg h3]
        by_cases h4 : dmem d2 "dllcol" = true ∧ ¬ dmem d2 "dllre" = true
        · rw [if_pos h4, if_pos h4]
          exact ⟨rfl, fun o o' ho => absurd ho (by simp)⟩
        · rw [if_neg h4, if_neg h4]
          by_cases h5 : dmem d2 "dllcol" = true ∧ dmem d2 "dlatcol" = true
          · rw [if_pos h5, if_pos h5]
            exact ⟨rfl, fun o o' ho => absurd ho (by simp)⟩
          · rw [if_neg h5, if_neg h5]
            refine ⟨rfl, fun o o' ho ho' => ?h⟩
            cases ho
            cases ho'
            exact ⟨hdg, rfl, rfl, rfl⟩

theorem readGlobals_perm (caps : Caps) {gs gs' : List (List String)}
    (rest rest' : List (List String)) (hperm : gs.Perm gs')
    (hb : ∀ g ∈ gs, (g.map pyStrip).headD "" ≠ "")
    (hnd : (gs.map (fun g => (g.map pyStrip).headD "")).Nodup) :
    (isOk (KeyFile.readGlobals caps (gs ++ [""] :: rest)) =
      isOk (KeyFile.readGlobals caps (gs' ++ [""] :: rest'))) ∧
    (∀ o o', KeyFile.readGlobals caps (gs ++ [""] :: rest) = Except.ok o →
      KeyFile.readGlobals caps (gs' ++ [""] :: rest') = Except.ok o' →
      (∀ k, dget o.1 k = dget o'.1 k) ∧ o.2.1 = rest ∧ o'.2.1 = rest' ∧
        o.2.2 = o'.2.2) := by
  have hb' : ∀ g ∈ gs', (g.map pyStrip).headD "" ≠ "" :=
    fun g h => hb g (hperm.mem_iff.mpr h)
  have hall : gs.all (gRowOk caps) = gs'.all (gRowOk caps) :=
    all_perm _ hperm
  rcases readGlobalsLoop_split caps gs rest 0 [] hb with
    ⟨ha1, he1⟩ | ⟨ha1, e1, he1⟩
  · rcases readGlobalsLoop_split caps gs' rest' 0 [] hb' with
      ⟨ha2, he2⟩ | ⟨ha2, e2, he2⟩
    · have hdg := dget_foldl_gStep_perm caps hperm hnd
      rw [KeyFile.readGlobals, KeyFile.readGlobals, he1, he2,
        ← hperm.length_eq]
      rw [except_bind_ok, except_bind_ok]
      dsimp only
      have hdgE := dget_default_congr _ _ "encoding" (GVal.str "utf-8") hdg
      have hdgM := dget_default_congr _ _ "maxskippct" (GVal.rat (mkRat 0 1))
        hdgE
      exact gFinal_congr _ _ rest rest' (0 + gs.length + 1) hdgM
    · rw [hall] at ha1
      rw [ha1] at ha2
      cases ha2
  · rcases readGlobalsLoop_split caps gs' rest' 0 [] hb' with
      ⟨ha2, he2⟩ | ⟨ha2, e2, he2⟩
    · rw [hall] at ha1
      rw [ha1] at ha2
      cases ha2
    · rw [KeyFile.readGlobals, KeyFile.readGlobals, he1, he2,
        except_bind_error, except_bind_error]
      exact ⟨rfl, fun o o' ho => absurd ho (by simp)⟩

/-- C8: for valid key files (each global row stripped to a nonblank key,
global keys pairwise distinct, column-attribute names pairwise distinct
after blank-row removal), `KeyFile.read` is deterministic, and permuting
the global-section rows and the column-section rows preserves success,
the globals contents, the header-to-identifier map, and the per-identifier
attribute contents. -/
theorem C8_parser_order_independence (caps : Caps)
    (gs gs' cs cs' : List (List String))
    (hpg : gs.Perm gs') (hpc : cs.Perm cs')
    (hb : ∀ g ∈ gs, (g.map pyStrip).headD "" ≠ "")
    (hndg : (gs.map (fun g => (g.map pyStrip).headD "")).Nodup)
    (hndc : ((nbRows cs).map (fun r => r.headD "")).Nodup) :
    (KeyFile.read caps (gs ++ [""] :: cs) =
      KeyFile.read caps (gs ++ [""] :: cs)) ∧
    (isOk (KeyFile.read caps (gs ++ [""] :: cs)) =
      isOk (KeyFile.read caps (gs' ++ [""] :: cs'))) ∧
    (∀ kf kf', KeyFile.read caps (gs ++ [""] :: cs) = Except.ok kf →
      KeyFile.read caps (gs' ++ [""] :: cs') = Except.ok kf' →
      (∀ k, dget kf.globals k = dget kf'.globals k) ∧
      kf.hdr_to_id = kf'.hdr_to_id ∧
      (∀ i, (dget kf.ids i).isSome = (dget kf'.ids i).isSome) ∧
      (∀ i a, dget ((dget kf.ids i).getD []) a =
        dget ((dget kf'.ids i).getD []) a)) := by
  refine ⟨rfl, ?p⟩
  obtain ⟨hgIsOk, hgOk⟩ := readGlobals_perm caps cs cs' hpg hb hndg
  cases hg1 : KeyFile.readGlobals caps (gs ++ [""] :: cs) with
  | error e =>
    rw [hg1] at hgIsOk
    cases hg2 : KeyFile.readGlobals caps (gs' ++ [""] :: cs') with
    | error e' =>
      rw [KeyFile.read, KeyFile.read, hg1, hg2, except_bind_error,
        except_bind_error]
      exact ⟨rfl, fun kf kf' hkf => absurd hkf (by simp)⟩
    | ok o' =>
      rw [hg2] at hgIsOk
      cases hgIsOk
  | ok o =>
    rw [hg1] at hgIsOk
    cases hg2 : KeyFile.readGlobals caps (gs' ++ [""] :: cs') with
    | error e' =>
      rw [hg2] at hgIsOk
      cases hgIsOk
    | ok o' =>
      obtain ⟨hdgG, hr1, hr2, hline⟩ := hgOk o o' hg1 hg2
      obtain ⟨d1, r1, l1⟩ := o
      obtain ⟨d2, r2, l2⟩ := o'
      dsimp only at hdgG hr1 hr2 hline
      rw [KeyFile.read, KeyFile.read, hg1, hg2, except_bind_ok,
        except_bind_ok]
      dsimp only
      rw [hr1, hr2]
      obtain ⟨hcIsOk, hcOk⟩ := readCols_perm l1 l2 cs cs' hpc hndc
      cases hc1 : KeyFile.readCols l1 cs with
      | error e =>
        rw [hc1] at hcIsOk
        cases hc2 : KeyFile.readCols l2 cs' with
        | error e' =>
          rw [except_bind_error, except_bind_error]
          exact ⟨rfl, fun kf kf' hkf => absurd hkf (by simp)⟩
        | ok p' =>
          rw [hc2] at hcIsOk
          cases hcIsOk
      | ok p =>
        rw [hc1] at hcIsOk
        cases hc2 : KeyFile.readCols l2 cs' with
        | error e' =>
          rw [hc2] at hcIsOk
          cases hcIsOk
        | ok p' =>
          obtain ⟨hh, hids⟩ := hcOk p p' hc1 hc2
          rw [except_bind_ok, except_bind_ok]
          refine ⟨rfl, fun kf kf' hkf hkf' => ?q⟩
          cases hkf
          cases hkf'
          exact ⟨hdgG, hh, fun i => idsRel_dget_isSome hids i,
            fun i a => idsRel_dget_content hids i a⟩

theorem C8_parser_order_independence_witness :
    g8s.Perm g8sP ∧ c8s.Perm c8sP ∧
    (∀ g ∈ g8s, (g.map pyStrip).headD "" ≠ "") ∧
    (g8s.map (fun g => (g.map pyStrip).headD "")).Nodup ∧
    ((nbRows c8s).map (fun r => r.headD "")).Nodup ∧
    isOk (KeyFile.read caps0 (g8s ++ [""] :: c8s)) =
      isOk (KeyFile.read caps0 (g8sP ++ [""] :: c8sP)) :=
  ⟨by decide, by decide, by decide, by decide, by decide,
   (C8_parser_order_independence caps0 g8s g8sP c8s c8sP (by decide)
     (by decide) (by decide) (by decide) (by decide)).2.1⟩

theorem secondLoop_untouched (G : List (List String)) (iidx : Nat)
    (id : String) :
    ∀ (L : List Nat) (ids : List (String × List (String × String))),
      (∀ j ∈ L, cellAt G j iidx ≠ id) →
      dget (L.foldl (colsSecondStep G iidx) ids) id = dget ids id := by
  intro L
  induction L with
  | nil => intro ids _; rfl
  | cons j L ih =>
    intro ids hL
    rw [List.foldl_cons,
      ih _ (fun j' h => hL j' (List.mem_cons_of_mem _ h))]
    simp only [colsSecondStep]
    by_cases hc : cellAt G j iidx ≠ ""
    · rw [if_pos hc, dget_dinsert,
        if_neg (Ne.symm (hL j (List.mem_cons_self j L)))]
    · rw [if_neg hc]

theorem colsFirstStep_isOk_acc (nl : List (String × Nat))
    (G : List (List String)) (hidx iidx : Nat)
    (hi hi' : List (String × String) × List (String × List (String × String)))
    (j : Nat) :
    isOk (colsFirstStep nl G hidx iidx hi j) =
      isOk (colsFirstStep nl G hidx iidx hi' j) := by
  simp only [colsFirstStep]
  by_cases h1 : cellAt G j iidx ≠ ""
  · rw [if_pos h1, if_pos h1]
    by_cases h2 : ¬ idpatMatch (cellAt G j iidx) = true
    · rw [if_pos h2, if_pos h2]
    · rw [if_neg h2, if_neg h2]
      by_cases h3 : (cellAt G j iidx).length > 10
      · rw [if_pos h3, if_pos h3]
      · rw [if_neg h3, if_neg h3]
        rfl
  · rw [if_neg h1, if_neg h1]
    rfl

theorem C9_overwrite_core (R : List (List String)) (iidx : Nat)
    (ids0 : List (String × List (String × String))) (j2 : Nat)
    (hnd : (R.map (fun r => r.headD "")).Nodup)
    (hj2a : 1 ≤ j2) (hj2b : j2 < maxW R)
    (hid : cellAt (gridOf R) j2 iidx ≠ "")
    (hlast : ∀ j, j2 < j → j < maxW R →
      cellAt (gridOf R) j iidx ≠ cellAt (gridOf R) j2 iidx) :
    ∀ a r, R.find? (fun row => row.headD "" == a) = Option.some r →
      dget ((dget (colsSecondLoop (gridOf R) iidx ids0)
          (cellAt (gridOf R) j2 iidx)).getD []) a =
        Option.some (r.getD j2 "") := by
  intro a r hfind
  rw [colsSecondLoop, gridOf_length]
  have h1 : maxW R - 1 = (1 + (maxW R - 1 - j2)) + (j2 - 1) := by omega
  rw [h1, ← List.range'_append]
  have h2 : 1 + 1 * (j2 - 1) = j2 := by omega
  rw [h2, Nat.add_comm 1 (maxW R - 1 - j2), List.range'_succ,
    List.foldl_append, List.foldl_cons]
  rw [secondLoop_untouched _ _ _ _ _ (fun j hj => by
    rw [List.mem_range'_1] at hj
    exact hlast j (by omega) (by omega))]
  simp only [colsSecondStep]
  rw [if_pos hid, dget_dinsert, if_pos rfl, Option.getD_some]
  rw [secondInner_content R j2 _ a hnd hj2b, hfind]
  rfl

theorem csDup_readCols :
    KeyFile.readCols 1 csDup = Except.ok
      ([("h1", "dup"), ("h2", "dup")],
       [("dup", [("csv_header", "h2"), ("identifier", "dup"),
                 ("datatype", "integer"),
                 ("shortname:en", "Second Name")])]) := by decide

/-- C9: when two column positions declare the same non-empty identifier,
the parser raises no error on account of the duplicate — the first
per-column pass's success/failure never depends on what was accumulated
before (so a repeated identifier passes exactly as a fresh one does) —
and the resulting schema holds, for every attribute row, the value from
the last column declaring that identifier: the later column overwrites
the earlier one attribute by attribute, as the end-to-end `csDup`
example (identifier `dup` declared at columns 1 and 2) shows. -/
theorem C9_duplicate_identifier_overwrite (R : List (List String))
    (iidx : Nat) (ids0 : List (String × List (String × String))) (j2 : Nat)
    (hnd : (R.map (fun r => r.headD "")).Nodup)
    (hj2a : 1 ≤ j2) (hj2b : j2 < maxW R)
    (hid : cellAt (gridOf R) j2 iidx ≠ "")
    (hlast : ∀ j, j2 < j → j < maxW R →
      cellAt (gridOf R) j iidx ≠ cellAt (gridOf R) j2 iidx) :
    (∀ a r, R.find? (fun row => row.headD "" == a) = Option.some r →
      dget ((dget (colsSecondLoop (gridOf R) iidx ids0)
          (cellAt (gridOf R) j2 iidx)).getD []) a =
        Option.some (r.getD j2 "")) ∧
    (∀ nl G hidx iidx' hi hi' j,
      isOk (colsFirstStep nl G hidx iidx' hi j) =
        isOk (colsFirstStep nl G hidx iidx' hi' j)) ∧
    KeyFile.readCols 1 csDup = Except.ok
      ([("h1", "dup"), ("h2", "dup")],
       [("dup", [("csv_header", "h2"), ("identifier", "dup"),
                 ("datatype", "integer"),
                 ("shortname:en", "Second Name")])]) :=
  ⟨C9_overwrite_core R iidx ids0 j2 hnd hj2a hj2b hid hlast,
   fun nl G hidx iidx' hi hi' j =>
     colsFirstStep_isOk_acc nl G hidx iidx' hi hi' j,
   by decide⟩

theorem C9_duplicate_identifier_overwrite_witness :
    (csDup.map (fun r => r.headD "")).Nodup ∧
    cellAt (gridOf csDup) 2 1 ≠ "" ∧
    dget ((dget (colsSecondLoop (gridOf csDup) 1 []) "dup").getD [])
        "shortname:en" = Option.some "Second Name" :=
  ⟨by decide, by decide,
   (C9_duplicate_identifier_overwrite csDup 1 [] 2 (by decide) (by decide)
     (by decide) (by decide)
     (fun j hj1 hj2 => absurd hj2 (by
       rw [show maxW csDup = 3 from by decide]
       omega))).1
     "shortname:en" ["shortname:en", "First Name", "Second Name"]
     (by decide)⟩

theorem foldlM_keyset {α : Type}
    (f : List (String × PyVal) → α → Except Err (List (String × PyVal)))
    (P : α → String → Prop)
    (hf : ∀ acc x out, f acc x = Except.ok out →
      ∀ k, (dget out k).isSome ↔ P x k ∨ (dget acc k).isSome) :
    ∀ (l : List α) (acc out), l.foldlM f acc = Except.ok out →
      ∀ k, (dget out k).isSome ↔ (∃ x ∈ l, P x k) ∨ (dget acc k).isSome := by
  intro l
  induction l with
  | nil =>
    intro acc out ho k
    cases ho
    simp
  | cons x rest ih =>
    intro acc out ho k
    rw [List.foldlM_cons] at ho
    cases hfx : f acc x with
    | error e =>
      rw [hfx, except_bind_error] at ho
      exact absurd ho (by simp)
    | ok acc' =>
      rw [hfx, except_bind_ok] at ho
      rw [ih acc' out ho k, hf acc x acc' hfx k]
      constructor
      · rintro (⟨y, hy, hP⟩ | (hP | hacc))
        · exact Or.inl ⟨y, List.mem_cons_of_mem x hy, hP⟩
        · exact Or.inl ⟨x, List.mem_cons_self x rest, hP⟩
        · exact Or.inr hacc
      · rintro (⟨y, hy, hP⟩ | hacc)
        · rcases List.mem_cons.mp hy with rfl | hy'
          · exact Or.inr (Or.inl hP)
          · exact Or.inl ⟨y, hy', hP⟩
        · exact Or.inr (Or.inr hacc)

theorem idsLoop_keyset (kf : KeyFile) (raw : List (String × String))
    (line : Nat) (retval out : List (String × PyVal))
    (ho : idsLoop kf raw line retval = Except.ok out) (k : String) :
    (dget out k).isSome ↔
      (∃ p ∈ kf.ids, p.1 = k ∧ ¬ (p.1 = "dlat" ∨ p.1 = "dlon") ∧
        ∃ hdr, dget p.2 "csv_header" = Option.some hdr ∧ hdr ≠ "") ∨
      (dget retval k).isSome := by
  rw [idsLoop] at ho
  refine foldlM_keyset _
    (fun p k => p.1 = k ∧ ¬ (p.1 = "dlat" ∨ p.1 = "dlon") ∧
      ∃ hdr, dget p.2 "csv_header" = Option.some hdr ∧ hdr ≠ "")
    ?step kf.ids retval out ho k
  intro acc p pout hstep k'
  by_cases hpos : p.1 = "dlat" ∨ p.1 = "dlon"
  · rw [if_pos hpos] at hstep
    cases hstep
    constructor
    · exact fun h => Or.inr h
    · rintro (⟨_, hneg, _⟩ | h)
      · exact absurd hpos hneg
      · exact h
  · rw [if_neg hpos] at hstep
    cases hhdr : dget p.2 "csv_header" with
    | none =>
      rw [hhdr] at hstep
      exact absurd hstep (by simp)
    | some hdr =>
      rw [hhdr] at hstep
      dsimp only at hstep
      by_cases hblank : hdr = ""
      · rw [if_pos hblank] at hstep
        cases hstep
        constructor
        · exact fun h => Or.inr h
        · rintro (⟨_, _, hdr', hh', hne'⟩ | h)
          · rw [hhdr] at hh'
            cases hh'
            exact absurd hblank hne'
          · exact h
      · rw [if_neg hblank] at hstep
        cases hdt : dget p.2 "datatype" with
        | none =>
          rw [hdt] at hstep
          exact absurd hstep (by simp)
        | some dt =>
          rw [hdt] at hstep
          dsimp only at hstep
          cases htv : DATA_PARSE.typed_val dt (dget raw hdr) with
          | error e =>
            rw [htv] at hstep
            cases e <;> exact absurd hstep (by simp)
          | ok v =>
            rw [htv] at hstep
            dsimp only at hstep
            cases hstep
            rw [dget_dinsert]
            by_cases hk : k' = p.1
            · rw [if_pos hk]
              exact ⟨fun _ => Or.inl ⟨hk.symm, hpos, hdr, hhdr, hblank⟩,
                fun _ => rfl⟩
            · rw [if_neg hk]
              constructor
              · exact fun h => Or.inr h
              · rintro (⟨hpk, _, _⟩ | h)
                · exact absurd hpk.symm hk
                · exact h

theorem groupLoop_keyset (kf : KeyFile) (dllv : GVal)
    (raw : List (String × String)) (line : Nat) (pat : String)
    (m : List (String × Option String)) (retval out : List (String × PyVal))
    (ho : groupLoop kf dllv raw line pat m retval = Except.ok out)
    (k : String) :
    (dget out k).isSome ↔
      (∃ kv ∈ m, kv.1 = k ∧ ¬ (kv.1 = "dlat" ∨ kv.1 = "dlon") ∧
        dmem kf.ids kv.1 = true) ∨
      (dget retval k).isSome := by
  rw [groupLoop] at ho
  refine foldlM_keyset _
    (fun kv k => kv.1 = k ∧ ¬ (kv.1 = "dlat" ∨ kv.1 = "dlon") ∧
      dmem kf.ids kv.1 = true)
    ?step m retval out ho k
  intro acc kv pout hstep k'
  by_cases hpos : kv.1 = "dlat" ∨ kv.1 = "dlon"
  · rw [if_pos hpos] at hstep
    cases hstep
    constructor
    · exact fun h => Or.inr h
    · rintro (⟨_, hneg, _⟩ | h)
      · exact absurd hpos hneg
      · exact h
  · rw [if_neg hpos] at hstep
    by_cases hdm : dmem kf.ids kv.1 = true
    · rw [if_pos hdm] at hstep
      cases hids : dget kf.ids kv.1 with
      | none =>
        rw [hids] at hstep
        exact absurd hstep (by simp)
      | some attrs =>
        rw [hids] at hstep
        dsimp only at hstep
        cases hdt : dget attrs "datatype" with
        | none =>
          rw [hdt] at hstep
          exact absurd hstep (by simp)
        | some dt =>
          rw [hdt] at hstep
          dsimp only at hstep
          cases htv : DATA_PARSE.typed_val dt kv.2 with
          | error e =>
            rw [htv] at hstep
            cases e <;> exact absurd hstep (by simp)
          | ok v =>
            rw [htv] at hstep
            dsimp only at hstep
            cases hstep
            rw [dget_dinsert]
            by_cases hk : k' = kv.1
            · rw [if_pos hk]
              exact ⟨fun _ => Or.inl ⟨hk.symm, hpos, hdm⟩, fun _ => rfl⟩
            · rw [if_neg hk]
              constructor
              · exact fun h => Or.inr h
              · rintro (⟨hpk, _, _⟩ | h)
                · exact absurd hpk.symm hk
                · exact h
    · rw [if_neg hdm] at hstep
      cases hstep
      constructor
      · exact fun h => Or.inr h
      · rintro (⟨_, _, hdm'⟩ | h)
        · exact absurd hdm' hdm
        · exact h

theorem pairBase_isSome (x y : PyVal) (k : String) :
    (dget [("dlat", x), ("dlon", y)] k).isSome = true ↔
      k = "dlat" ∨ k = "dlon" := by
  rw [dget_cons]
  by_cases h1 : ("dlat" : String) = k
  · rw [if_pos h1]
    exact ⟨fun _ => Or.inl h1.symm, fun _ => rfl⟩
  · rw [if_neg h1, dget_cons]
    by_cases h2 : ("dlon" : String) = k
    · rw [if_pos h2]
      exact ⟨fun _ => Or.inr h2.symm, fun _ => rfl⟩
    · rw [if_neg h2]
      constructor
      · intro h
        exact absurd h (by simp [dget])
      · rintro (rfl | rfl)
        · exact absurd rfl h1
        · exact absurd rfl h2

theorem dget_of_mem_nodup {α : Type} (d : List (String × α))
    (p : String × α) (hmem : p ∈ d) (hnd : (d.map Prod.fst).Nodup) :
    dget d p.1 = Option.some p.2 := by
  induction d with
  | nil => cases hmem
  | cons q rest ih =>
    rw [List.map_cons, List.nodup_cons] at hnd
    rcases List.mem_cons.mp hmem with rfl | hmem'
    · rw [dget_cons, if_pos rfl]
    · rw [dget_cons]
      by_cases hq : q.1 = p.1
      · exact absurd (hq ▸ List.mem_map.mpr ⟨p, hmem', rfl⟩) hnd.1
      · rw [if_neg hq]
        exact ih hmem' hnd.2

theorem direct_success_red (kf : KeyFile) (raw : List (String × String))
    (line : Nat) (dv latv lonv : GVal) (q1 q2 : Rat)
    (hc : dget kf.globals "dllcol" = Option.some dv)
    (htr : dv.truthy = false)
    (hlat : dget kf.globals "dlatcol" = Option.some latv)
    (hlon : dget kf.globals "dloncol" = Option.some lonv)
    (hp1 : DATA_PARSE.real
      (rawGet (raw.map (fun kv => (kv.1, pyStrip kv.2))) latv) =
      Except.ok (Option.some q1))
    (hp2 : DATA_PARSE.real
      (rawGet (raw.map (fun kv => (kv.1, pyStrip kv.2))) lonv) =
      Except.ok (Option.some q2)) :
    process_data_row kf raw line =
      (idsLoop kf (raw.map (fun kv => (kv.1, pyStrip kv.2))) line
          [("dlat", PyVal.real q1), ("dlon", PyVal.real q2)]) >>=
        fun rv => Except.ok (Outcome.record rv) := by
  simp [process_data_row, glookup, hc, htr, hlat, hlon, except_bind_ok,
    hp1, hp2, pure, Except.pure, dinsert_d1, dinsert_d2, dget_d1, dget_d2,
    pvOfReal]

theorem combined_success_red (kf : KeyFile) (raw : List (String × String))
    (line : Nat) (c : String) (r : Regex)
    (m : List (String × Option String)) (g1 g2 : Option String)
    (q1 q2 : Rat)
    (hc : dget kf.globals "dllcol" = Option.some (GVal.str c))
    (hcne : c ≠ "")
    (hre : dget kf.globals "dllre" = Option.some (GVal.re r))
    (hm : r.mtch ((dget (raw.map (fun kv => (kv.1, pyStrip kv.2))) c).getD
      "") = Option.some m)
    (hg1 : mgroup m "dlat" = Except.ok g1)
    (hp1 : DATA_PARSE.real g1 = Except.ok (Option.some q1))
    (hg2 : mgroup m "dlon" = Except.ok g2)
    (hp2 : DATA_PARSE.real g2 = Except.ok (Option.some q2)) :
    process_data_row kf raw line =
      (groupLoop kf (GVal.str c) (raw.map (fun kv => (kv.1, pyStrip kv.2)))
          line r.pattern m
          [("dlat", PyVal.real q1), ("dlon", PyVal.real q2)]) >>=
        fun rv =>
          (idsLoop kf (raw.map (fun kv => (kv.1, pyStrip kv.2))) line rv)
            >>= fun rv2 => Except.ok (Outcome.record rv2) := by
  simp [process_data_row, glookup, hc, hre, GVal.truthy, hcne,
    except_bind_ok, rawGet, hm, hg1, hp1, hg2, hp2, gvalText, pure,
    Except.pure, dinsert_d1, dinsert_d2, dget_d1, dget_d2, pvOfReal]

/-- C10: whenever row extraction returns a Record, the Record's keys are
exactly `dlat`, `dlon`, every declared identifier whose `csv_header` is
non-empty, and — under the combined strategy only — every named capture
group of `dllre` that is a declared identifier; consequently a declared
identifier with an empty `csv_header` is never a Record key, and
`add_data`'s subscript `record[c]` raises `KeyError` for it. -/
theorem C10_record_keyset :
    (∀ (kf : KeyFile) (raw : List (String × String)) (line : Nat)
      (c : String) (r : Regex) (m : List (String × Option String))
      (g1 g2 : Option String) (q1 q2 : Rat) (rec : List (String × PyVal)),
      dget kf.globals "dllcol" = Option.some (GVal.str c) → c ≠ "" →
      dget kf.globals "dllre" = Option.some (GVal.re r) →
      r.mtch ((dget (raw.map (fun kv => (kv.1, pyStrip kv.2))) c).getD "")
        = Option.some m →
      mgroup m "dlat" = Except.ok g1 →
      DATA_PARSE.real g1 = Except.ok (Option.some q1) →
      mgroup m "dlon" = Except.ok g2 →
      DATA_PARSE.real g2 = Except.ok (Option.some q2) →
      process_data_row kf raw line = Except.ok (Outcome.record rec) →
      ∀ k, ((dget rec k).isSome = true ↔ k = "dlat" ∨ k = "dlon" ∨
        (∃ kv ∈ m, kv.1 = k ∧ ¬ (kv.1 = "dlat" ∨ kv.1 = "dlon") ∧
          dmem kf.ids kv.1 = true) ∨
        (∃ p ∈ kf.ids, p.1 = k ∧ ¬ (p.1 = "dlat" ∨ p.1 = "dlon") ∧
          ∃ hdr, dget p.2 "csv_header" = Option.some hdr ∧ hdr ≠ ""))) ∧
    (∀ (kf : KeyFile) (raw : List (String × String)) (line : Nat)
      (dv latv lonv : GVal) (q1 q2 : Rat) (rec : List (String × PyVal)),
      dget kf.globals "dllcol" = Option.some dv → dv.truthy = false →
      dget kf.globals "dlatcol" = Option.some latv →
      dget kf.globals "dloncol" = Option.some lonv →
      DATA_PARSE.real
        (rawGet (raw.map (fun kv => (kv.1, pyStrip kv.2))) latv) =
        Except.ok (Option.some q1) →
      DATA_PARSE.real
        (rawGet (raw.map (fun kv => (kv.1, pyStrip kv.2))) lonv) =
        Except.ok (Option.some q2) →
      process_data_row kf raw line = Except.ok (Outcome.record rec) →
      ∀ k, ((dget rec k).isSome = true ↔ k = "dlat" ∨ k = "dlon" ∨
        (∃ p ∈ kf.ids, p.1 = k ∧ ¬ (p.1 = "dlat" ∨ p.1 = "dlon") ∧
          ∃ hdr, dget p.2 "csv_header" = Option.some hdr ∧ hdr ≠ ""))) ∧
    (∀ (kf : KeyFile) (raw : List (String × String)) (line : Nat)
      (dv latv lonv : GVal) (q1 q2 : Rat) (rec : List (String × PyVal))
      (k : String) (attrs : List (String × String)),
      dget kf.globals "dllcol" = Option.some dv → dv.truthy = false →
      dget kf.globals "dlatcol" = Option.some latv →
      dget kf.globals "dloncol" = Option.some lonv →
      DATA_PARSE.real
        (rawGet (raw.map (fun kv => (kv.1, pyStrip kv.2))) latv) =
        Except.ok (Option.some q1) →
      DATA_PARSE.real
        (rawGet (raw.map (fun kv => (kv.1, pyStrip kv.2))) lonv) =
        Except.ok (Option.some q2) →
      process_data_row kf raw line = Except.ok (Outcome.record rec) →
      (kf.ids.map Prod.fst).Nodup →
      dget kf.ids k = Option.some attrs →
      dget attrs "csv_header" = Option.some "" →
      k ≠ "dlat" → k ≠ "dlon" →
      recordIndex rec k = Except.error (Err.keyError k)) := by
  have hdirect : ∀ (kf : KeyFile) (raw : List (String × String))
      (line : Nat) (dv latv lonv : GVal) (q1 q2 : Rat)
      (rec : List (String × PyVal)),
      dget kf.globals "dllcol" = Option.some dv → dv.truthy = false →
      dget kf.globals "dlatcol" = Option.some latv →
      dget kf.globals "dloncol" = Option.some lonv →
      DATA_PARSE.real
        (rawGet (raw.map (fun kv => (kv.1, pyStrip kv.2))) latv) =
        Except.ok (Option.some q1) →
      DATA_PARSE.real
        (rawGet (raw.map (fun kv => (kv.1, pyStrip kv.2))) lonv) =
        Except.ok (Option.some q2) →
      process_data_row kf raw line = Except.ok (Outcome.record rec) →
      ∀ k, ((dget rec k).isSome = true ↔ k = "dlat" ∨ k = "dlon" ∨
        (∃ p ∈ kf.ids, p.1 = k ∧ ¬ (p.1 = "dlat" ∨ p.1 = "dlon") ∧
          ∃ hdr, dget p.2 "csv_header" = Option.some hdr ∧ hdr ≠ "")) := by
    intro kf raw line dv latv lonv q1 q2 rec hc htr hlat hlon hp1 hp2
      hrec k
    rw [direct_success_red kf raw line dv latv lonv q1 q2 hc htr hlat hlon
      hp1 hp2] at hrec
    cases hil : idsLoop kf (raw.map (fun kv => (kv.1, pyStrip kv.2))) line
        [("dlat", PyVal.real q1), ("dlon", PyVal.real q2)] with
    | error e =>
      rw [hil, except_bind_error] at hrec
      exact absurd hrec (by simp)
    | ok rv =>
      rw [hil, except_bind_ok] at hrec
      injection hrec with h
      injection h with h
      subst h
      rw [idsLoop_keyset kf _ line _ _ hil k, pairBase_isSome]
      constructor
      · rintro (h | h | h)
        · exact Or.inr (Or.inr h)
        · exact Or.inl h
        · exact Or.inr (Or.inl h)
      · rintro (h | h | h)
        · exact Or.inr (Or.inl h)
        · exact Or.inr (Or.inr h)
        · exact Or.inl h
  refine ⟨?comb, hdirect, ?cons⟩
  · intro kf raw line c r m g1 g2 q1 q2 rec hc hcne hre hm hg1 hp1 hg2
      hp2 hrec k
    rw [combined_success_red kf raw line c r m g1 g2 q1 q2 hc hcne hre hm
      hg1 hp1 hg2 hp2] at hrec
    cases hgl : groupLoop kf (GVal.str c)
        (raw.map (fun kv => (kv.1, pyStrip kv.2))) line r.pattern m
        [("dlat", PyVal.real q1), ("dlon", PyVal.real q2)] with
    | error e =>
      rw [hgl, except_bind_error] at hrec
      exact absurd hrec (by simp)
    | ok rv =>
      rw [hgl, except_bind_ok] at hrec
      cases hil : idsLoop kf (raw.map (fun kv => (kv.1, pyStrip kv.2)))
          line rv with
      | error e =>
        rw [hil, except_bind_error] at hrec
        exact absurd hrec (by simp)
      | ok rv2 =>
        rw [hil, except_bind_ok] at hrec
        injection hrec with h
        injection h with h
        subst h
        rw [idsLoop_keyset kf _ line _ _ hil k,
          groupLoop_keyset kf (GVal.str c) _ line r.pattern m _ _ hgl k,
          pairBase_isSome]
        constructor
        · rintro (h | h | h | h)
          · exact Or.inr (Or.inr (Or.inr h))
          · exact Or.inr (Or.inr (Or.inl h))
          · exact Or.inl h
          · exact Or.inr (Or.inl h)
        · rintro (h | h | h | h)
          · exact Or.inr (Or.inr (Or.inl h))
          · exact Or.inr (Or.inr (Or.inr h))
          · exact Or.inr (Or.inl h)
          · exact Or.inl h
  · intro kf raw line dv latv lonv q1 q2 rec k attrs hc htr hlat hlon hp1
      hp2 hrec hnd hdid hemp hk1 hk2
    have hiff := hdirect kf raw line dv latv lonv q1 q2 rec hc htr hlat
      hlon hp1 hp2 hrec k
    have hnone : ¬ (dget rec k).isSome = true := by
      intro hs
      rcases hiff.mp hs with h | h | ⟨p, hpmem, hpk, hneg, hdr, hh, hne⟩
      · exact hk1 h
      · exact hk2 h
      · have hd := dget_of_mem_nodup kf.ids p hpmem hnd
        rw [hpk, hdid] at hd
        injection hd with h2
        rw [← h2] at hh
        rw [hemp] at hh
        injection hh with h3
        exact hne h3.symm
    have hnone2 : dget rec k = Option.none :=
      Option.not_isSome_iff_eq_none.mp hnone
    rw [recordIndex, hnone2]

theorem C10_record_keyset_witness :
    process_data_row kfC10 [("latitude", "1.5"), ("longitude", "2.5"),
        ("nm", "Alice")] 2 = Except.ok (Outcome.record
      [("dlat", PyVal.real (mkRat 3 2)), ("dlon", PyVal.real (mkRat 5 2)),
       ("name", PyVal.str "Alice")]) ∧
    dget kfC10.ids "ghost" =
      Option.some [("csv_header", ""), ("identifier", "ghost"),
        ("datatype", "string")] ∧
    recordIndex [("dlat", PyVal.real (mkRat 3 2)),
        ("dlon", PyVal.real (mkRat 5 2)), ("name", PyVal.str "Alice")]
      "ghost" = Except.error (Err.keyError "ghost") :=
  ⟨by decide, by decide,
   C10_record_keyset.2.2 kfC10
     [("latitude", "1.5"), ("longitude", "2.5"), ("nm", "Alice")] 2
     (GVal.str "") (GVal.str "latitude") (GVal.str "longitude")
     (mkRat 3 2) (mkRat 5 2)
     [("dlat", PyVal.real (mkRat 3 2)), ("dlon", PyVal.real (mkRat 5 2)),
      ("name", PyVal.str "Alice")] "ghost"
     [("csv_header", ""), ("identifier", "ghost"), ("datatype", "string")]
     rfl (by decide) rfl rfl (by decide)
     (by decide) (by decide) (by decide) (by decide) (by decide)
     (by decide) (by decide)⟩
